import Mathlib

/-!
# k6-auto agent: job lifecycle, task registry, log fan-out and control loops

A shallow embedding of `src/agent/agent.go` and `src/agent/executor.go`.

* Go strings are `String`; the status of a task is the string the source writes.
* `time.Time` is a `Nat` (nanoseconds); the clock never runs backwards.
* `float64` progress values are the literals the source writes, kept as rationals.
* A `*Task` lives in the registry; the goroutine that runs a job and the HTTP
  handlers act on the same object, so a run is a sequence of atomic blocks of the
  lifecycle goroutine (`Op`) interleaved with events of the environment (`Ev`).
* The results of system calls (process exit, file writes, downloads) are inputs
  (`Outcome`); a run-time panic inside `Executor.Execute` is an input as well.
* The two `readOutput` goroutines of a k6 job are not waited for: the lines they
  handle before `cmd.Wait()` returns are blocks of the adapter, the lines they
  handle later are events of the environment.
* A send on a closed channel panics; a panic that nothing recovers ends the
  process (`RunState.crashed`), after which no step has any effect.
-/

namespace K6Agent

/-! ## Data model (agent.go, lines 24-149) -/

/-- Dynamic value of a Go `interface{}` found in parameter and result maps:
a string, or anything else together with its `%v` rendering. -/
inductive JVal where
  | str (s : String)
  | other (rendering : String)
deriving DecidableEq, Repr

/-- Rendering of a dynamic value by the `%v` verb. -/
def JVal.render : JVal → String
  | .str s => s
  | .other r => r

/-- Go map with string keys, kept as an association list (first binding wins). -/
abbrev GoMap (α : Type) := List (String × α)

/-- Map lookup `m[k]`. -/
def GoMap.get {α : Type} : GoMap α → String → Option α
  | [], _ => none
  | (k, v) :: rest, key => if k = key then some v else GoMap.get rest key

/-- Map assignment `m[k] = v`: replaces the binding of `k`, or adds one. -/
def GoMap.put {α : Type} : GoMap α → String → α → GoMap α
  | [], key, v => [(key, v)]
  | (k, w) :: rest, key, v =>
    if k = key then (k, v) :: rest else (k, w) :: GoMap.put rest key v

/-- Job: the work description received from the backend (agent.go, line 51). -/
structure Job where
  ID : String
  Type_ : String
  ScriptID : String := ""
  ScriptContent : String := ""
  Command : String := ""
  Params : Option (GoMap JVal) := none
  Timeout : String := ""
  Priority : Int := 0
  Tags : GoMap String := []
deriving DecidableEq, Repr

/-- ExecuteRequest: body of the legacy execute endpoint (agent.go, line 91). -/
structure ExecuteRequest where
  ScriptID : String := ""
  ScriptContent : String := ""
  Parameters : Option (GoMap JVal) := none
  Options : Option (GoMap JVal) := none
  CallbackURL : String := ""
deriving DecidableEq, Repr

/-- TaskStatus: the mutable record of one job (agent.go, line 100). -/
structure TaskStatus where
  ID : String
  Status : String
  StartTime : Nat
  EndTime : Option Nat := none
  Progress : ℚ := 0
  Logs : List String := []
  Result : Option (GoMap JVal) := none
  Error : String := ""
  ScriptID : String := ""
  Parameters : Option (GoMap JVal) := none
deriving DecidableEq

/-- Cancellable context of a task: whether `Cancel` was called, and the instant
at which a timeout, if one was set, expires. -/
structure Ctx where
  cancelled : Bool := false
  deadline : Option Nat := none
deriving DecidableEq, Repr

/-- Value of `ctx.Err() != nil` at time `now`. -/
def Ctx.Err (c : Ctx) (now : Nat) : Bool :=
  c.cancelled || (match c.deadline with
    | some d => decide (d ≤ now)
    | none => false)

/-- Task: a job being executed (agent.go, line 114). `LogChan` is the buffered
channel of capacity 100, `Clients` the attached connections. -/
structure Task where
  Status : TaskStatus
  Cmd : Option (List String) := none
  Ctx : Ctx := {}
  LogChan : List String := []
  LogChanClosed : Bool := false
  Clients : List Nat := []
deriving DecidableEq

/-- AgentInfo: identity of the agent (agent.go, line 25). -/
structure AgentInfo where
  AgentID : String
  Hostname : String := ""
  Resources : GoMap Int := []
  Tags : GoMap String := []
deriving DecidableEq, Repr

/-- Agent: identity, registration flag and the task registry (agent.go, line 125). -/
structure Agent where
  info : AgentInfo
  serverURL : String := ""
  registrationToken : String := ""
  registered : Bool := false
  tasks : GoMap Task := []
deriving DecidableEq

/-- Response written with `c.JSON(code, body)`. -/
structure Response where
  code : Nat
  body : GoMap JVal
deriving DecidableEq, Repr

/-- Facts of the host and of the Go library the agent reads: duration parsing,
timestamp formatting, the temporary directory, the configured k6 binary, the OS. -/
structure Host where
  parseDuration : String → Option Nat
  formatTime : Nat → String
  tempDir : String := "/tmp"
  k6Binary : String := "k6"
  goos : String := "linux"

/-- Capacity of a task's log channel: `make(chan string, 100)`. -/
def logChanCap : Nat := 100

/-- The three terminal states of the lifecycle. -/
def isTerminal (s : String) : Bool :=
  s = "completed" || s = "failed" || s = "stopped"

/-! ## Task creation and the stop handler -/

/-- Task built by `executeJob` (agent.go, lines 420-442): status `pending`, the
context with the timeout of the job when it parses. -/
def newTask (host : Host) (job : Job) (now : Nat) : Task :=
  { Status :=
      { ID := job.ID, Status := "pending", StartTime := now, Progress := 0, Logs := [],
        ScriptID := job.ScriptID, Parameters := job.Params }
    LogChan := []
    Clients := []
    Ctx :=
      if job.Timeout ≠ "" then
        match host.parseDuration job.Timeout with
        | some d => { cancelled := false, deadline := some (now + d) }
        | none => {}
      else {} }

/-- Registry insertion of `executeJob` (agent.go, lines 445-447). -/
def insertTask (host : Host) (a : Agent) (job : Job) (now : Nat) : Agent :=
  { a with tasks := a.tasks.put job.ID (newTask host job now) }

/-- Body of the `if` of `StopTask` (agent.go, lines 636-642). -/
def stopTaskBody (task : Task) (now : Nat) : Task :=
  if task.Status.Status = "running" then
    { task with
      Ctx := { task.Ctx with cancelled := true }
      Status := { task.Status with Status := "stopped", EndTime := some now } }
  else task

/-- StopTask: the stop handler (agent.go, lines 624-645). -/
def StopTask (a : Agent) (taskID : String) (now : Nat) : Agent × Response :=
  match a.tasks.get taskID with
  | none => (a, { code := 404, body := [("error", .str "任务不存在")] })
  | some task =>
    ({ a with tasks := a.tasks.put taskID (stopTaskBody task now) },
     { code := 200, body := [("message", .str "任务已停止")] })

/-- Task id of `generateTaskID` (agent.go, line 879): `task-` and the clock in
nanoseconds, in decimal. -/
def generateTaskID (nanos : Nat) : String :=
  "task-" ++ toString nanos

/-- What a handler leaves behind: the agent, the response, and the jobs for which
it started `go a.executeJob(job)`; such a goroutine has not run yet when the
handler returns. -/
structure Handled where
  agent : Agent
  response : Response
  spawned : List Job

/-- ExecuteScript: the legacy execute handler (agent.go, lines 581-605). The
argument is the result of `c.ShouldBindJSON`. -/
def ExecuteScript (a : Agent) (bound : Except String ExecuteRequest) (now : Nat) : Handled :=
  match bound with
  | .error e =>
    { agent := a
      response := { code := 400, body := [("error", .str ("无效的请求参数: " ++ e))] }
      spawned := [] }
  | .ok req =>
    let job : Job :=
      { ID := generateTaskID now, Type_ := "k6", ScriptID := req.ScriptID,
        ScriptContent := req.ScriptContent, Params := req.Parameters }
    { agent := a
      response :=
        { code := 200
          body := [("taskId", .str job.ID), ("status", .str "pending"),
                   ("message", .str "任务已创建，开始执行")] }
      spawned := [job] }

/-! ## Messages sent to the backend -/

/-- JobStatusRequest: a progress ping (agent.go, line 69). -/
structure JobStatusRequest where
  JobID : String
  Status : String
  Progress : ℚ
  Log : String
  Timestamp : Nat
deriving DecidableEq

/-- JobResultRequest: the final report of a job (agent.go, line 78). -/
structure JobResultRequest where
  JobID : String
  Status : String
  ExitCode : Int
  MetricsJSON : String := ""
  HTMLReportURL : String := ""
  ExecutionTime : Int
  Log : String
  Error : String
  Timestamp : Nat
deriving DecidableEq

/-- Outbound traffic of the lifecycle goroutine. -/
inductive Wire where
  | status (r : JobStatusRequest)
  | result (r : JobResultRequest)
  | callback (url : String) (taskId : String) (status : String)
deriving DecidableEq

/-- Value of `t.Sub(u)`: the difference in nanoseconds, saturated to int64. -/
def timeSub (t u : Nat) : Int :=
  let d : Int := (t : Int) - (u : Int)
  if d > 9223372036854775807 then 9223372036854775807
  else if d < -9223372036854775808 then -9223372036854775808
  else d

/-- Value of `d.Milliseconds()`: integer division truncating toward zero. -/
def milliseconds (d : Int) : Int :=
  Int.tdiv d 1000000

/-- String entry of a result map: `m[key].(string)` guarded by both `ok` tests. -/
def stringEntry (m : Option (GoMap JVal)) (key : String) : String :=
  match m with
  | none => ""
  | some r =>
    match r.get key with
    | some (.str s) => s
    | _ => ""

/-- Request built by `reportJobResult` (agent.go, lines 522-553). -/
def reportJobResult (jobID : String) (task : Task) (now : Nat) : JobResultRequest :=
  let executionTime : Int :=
    match task.Status.EndTime with
    | some e => milliseconds (timeSub e task.Status.StartTime)
    | none => 0
  { JobID := jobID
    Status := task.Status.Status
    ExitCode := 0
    ExecutionTime := executionTime
    Log := String.intercalate "\n" task.Status.Logs
    Error := task.Status.Error
    Timestamp := now
    MetricsJSON := stringEntry task.Status.Result "metrics_json"
    HTMLReportURL := stringEntry task.Status.Result "html_report_url" }

/-! ## Log lines -/

/-- Non-blocking send `select { case ch <- line: default: }` on the buffered
channel: the line is queued when there is room and dropped otherwise. On a closed
channel the send panics, also inside a `select`: the result is `none`. -/
def offer (closed : Bool) (q : List String) (line : String) : Option (List String) :=
  if closed then none
  else if q.length < logChanCap then some (q ++ [line]) else some q

/-- What a block that logs leaves behind: the task, and whether the block
panicked on its send. -/
structure Logged where
  task : Task
  panicked : Bool

/-- The `select` of `addLog` and of `broadcastLog` on the channel of a task. -/
def trySend (task : Task) (line : String) : Logged :=
  match offer task.LogChanClosed task.LogChan line with
  | some q => { task := { task with LogChan := q }, panicked := false }
  | none => { task := task, panicked := true }

/-- addLog of the executor (executor.go, lines 344-358): the line is appended to
the history, then offered to the channel. -/
def addLog (host : Host) (task : Task) (now : Nat) (message : String) : Logged :=
  let logLine := "[" ++ host.formatTime now ++ "] " ++ message
  trySend { task with Status := { task.Status with Logs := task.Status.Logs ++ [logLine] } } logLine

/-- broadcastLog of the agent (agent.go, lines 865-871). -/
def broadcastLog (task : Task) (log : String) : Logged :=
  trySend task log

/-- Append to the history followed by `broadcastLog`, as the shell, python and
docker adapters do for each captured stream (agent.go, lines 747-754). -/
def appendAndBroadcast (task : Task) (line : String) : Logged :=
  broadcastLog { task with Status := { task.Status with Logs := task.Status.Logs ++ [line] } } line

/-- Test `strings.Contains` on character lists. -/
def containsChars (sub : List Char) : List Char → Bool
  | [] => sub.isEmpty
  | c :: cs => sub.isPrefixOf (c :: cs) || containsChars sub cs

/-- parseProgress (executor.go, lines 270-282): a line that contains `running`
and a slash sets the progress to the constant 50. -/
def parseProgress (task : Task) (line : String) : Task :=
  if containsChars "running".toList line.toList && containsChars "/".toList line.toList then
    { task with Status := { task.Status with Progress := 50 } }
  else task

/-- handleTaskError (executor.go, lines 361-368). -/
def handleTaskError (host : Host) (task : Task) (now : Nat) (message err : String) : Logged :=
  let text := message ++ ": " ++ err
  addLog host
    { task with Status := { task.Status with Status := "failed", Error := text, EndTime := some now } }
    now text

/-- End of `runK6Command`, after `cmd.Wait()` has returned `err`
(executor.go, lines 235-253). -/
def runK6CommandTail (host : Host) (task : Task) (now : Nat) (err : Option String) : Logged :=
  let task := { task with Status := { task.Status with EndTime := some now } }
  match err with
  | some e =>
    if task.Ctx.Err now = false then
      addLog host
        { task with Status := { task.Status with Status := "failed", Error := e } }
        now ("执行失败: " ++ e)
    else
      addLog host { task with Status := { task.Status with Status := "stopped" } } now "执行已停止"
  | none =>
    addLog host
      { task with Status := { task.Status with Status := "completed", Progress := 100 } }
      now "k6测试执行完成"

/-- Deferred function of `Execute` when `recover()` yields the panic value `v`
(executor.go, lines 48-56). -/
def recovered (task : Task) (now : Nat) (v : String) : Task :=
  { task with
    Status := { task.Status with Status := "failed", Error := "执行异常: " ++ v, EndTime := some now } }

/-- Final block of `executeJob` for the error `err` returned by the adapter
(agent.go, lines 468-479). -/
def finishJob (task : Task) (now : Nat) (err : Option String) : Task :=
  let task := { task with Status := { task.Status with EndTime := some now } }
  match err with
  | some e => { task with Status := { task.Status with Status := "failed", Error := e } }
  | none => { task with Status := { task.Status with Status := "completed", Progress := 1 } }

/-! ## Runs: atomic blocks of the lifecycle goroutine and events around it -/

/-- Atomic block of the goroutine that runs one job. -/
inductive Op where
  | setStatus (s : String)
  | addLog (message : String)
  | appendLog (line : String)
  | parseProgress (line : String)
  | setCmd (argv : List String)
  | setResult (r : GoMap JVal)
  | handleTaskError (message err : String)
  | waitDone (err : Option String)
  | recovered (v : String)
  | finish (err : Option String)
  | reportJobStatus (jobID status : String) (progress : ℚ) (log : String)
  | reportJobResult (jobID : String)
  | sendCallback (url : String)
  | exec (argv : List String)
  | closeLogChan
deriving DecidableEq

/-- Event of the environment: time passes, a stop request for this task is served
by `StopTask`, or one of the two `readOutput` goroutines of a k6 job, which
`runK6Command` starts and never joins, logs a line it has read or parses it for
progress (executor.go, lines 257-267). -/
inductive Ev where
  | elapse (d : Nat)
  | stopRequest
  | readerLog (source line : String)
  | readerProgress (line : String)
deriving DecidableEq, Repr

/-- One step of a run. -/
inductive Act where
  | env (e : Ev)
  | life (o : Op)
deriving DecidableEq

/-- State of a run: the task, the clock, what was sent to the backend, the
external processes launched so far, and whether the agent process has died of a
panic that nothing recovers. -/
structure RunState where
  task : Task
  clock : Nat
  outbox : List Wire := []
  launched : List (List String) := []
  crashed : Bool := false
deriving DecidableEq

/-- State after a block that logs: the task it leaves; a panic kills the process. -/
def land (s : RunState) (r : Logged) : RunState :=
  { s with task := r.task, crashed := r.panicked }

/-- Effect of one block of the lifecycle goroutine. A send panics only on a closed
channel, and the channel is closed by the last block of `executeJob`, so no block
of the lifecycle panics on its send (`stateAfter_alive`). -/
def Op.apply (host : Host) (s : RunState) : Op → RunState
  | .setStatus st => { s with task := { s.task with Status := { s.task.Status with Status := st } } }
  | .addLog m => land s (K6Agent.addLog host s.task s.clock m)
  | .appendLog l => land s (appendAndBroadcast s.task l)
  | .parseProgress l => { s with task := K6Agent.parseProgress s.task l }
  | .setCmd argv => { s with task := { s.task with Cmd := some argv } }
  | .setResult r => { s with task := { s.task with Status := { s.task.Status with Result := some r } } }
  | .handleTaskError m e => land s (K6Agent.handleTaskError host s.task s.clock m e)
  | .waitDone err => land s (runK6CommandTail host s.task s.clock err)
  | .recovered v => { s with task := K6Agent.recovered s.task s.clock v }
  | .finish err => { s with task := finishJob s.task s.clock err }
  | .reportJobStatus id st p l =>
    { s with outbox := s.outbox ++
        [.status { JobID := id, Status := st, Progress := p, Log := l, Timestamp := s.clock }] }
  | .reportJobResult id =>
    { s with outbox := s.outbox ++ [.result (K6Agent.reportJobResult id s.task s.clock)] }
  | .sendCallback url =>
    { s with outbox := s.outbox ++ [.callback url s.task.Status.ID s.task.Status.Status] }
  | .exec argv => { s with launched := s.launched ++ [argv] }
  | .closeLogChan => { s with task := { s.task with LogChanClosed := true } }

/-- Effect of one event of the environment. A reader that logs on a closed channel
panics in its own goroutine, where nothing recovers. -/
def Ev.apply (host : Host) (s : RunState) : Ev → RunState
  | .elapse d => { s with clock := s.clock + d }
  | .stopRequest => { s with task := stopTaskBody s.task s.clock }
  | .readerLog source line =>
    land s (addLog host s.task s.clock ("[" ++ source ++ "] " ++ line))
  | .readerProgress line => { s with task := parseProgress s.task line }

/-- Effect of one step; nothing happens any more in a process that has died. -/
def step (host : Host) (s : RunState) (a : Act) : RunState :=
  if s.crashed then s
  else
    match a with
    | .env e => e.apply host s
    | .life o => o.apply host s

/-- State at the end of a run. -/
def run (host : Host) (s : RunState) (acts : List Act) : RunState :=
  acts.foldl (step host) s

/-- Interleaving of the blocks of the goroutine with the environment:
`sched` gives, for each block in turn, the events served just before it. -/
def weave : List Op → List (List Ev) → List Act
  | [], _ => []
  | o :: ops, [] => .life o :: weave ops []
  | o :: ops, evs :: sched => evs.map .env ++ .life o :: weave ops sched

/-! ## Execution adapters

Each adapter is given as the blocks it performs, in order, and the error it
returns (`none` for `nil`), for the given results of the system calls. -/

/-- What became of the results file of a k6 run when `processResult` looks for it. -/
inductive ResultFile where
  | absent
  | unreadable
  | invalid (err : String)
  | parsed (r : GoMap JVal)
deriving DecidableEq

/-- Results of the system calls of one job. An error is the text of `err.Error()`.
`fault` makes the block of `Execute` at that position panic with that value. -/
structure Outcome where
  download : Except String String := .ok ""
  writeFile : Option String := none
  mkdir : Option String := none
  stdoutPipe : Option String := none
  stderrPipe : Option String := none
  start : Option String := none
  output : List (String × String) := []
  wait : Option String := none
  results : ResultFile := .absent
  stdout : String := ""
  stderr : String := ""
  runErr : Option String := none
  fault : Option (Nat × String) := none

/-- prepareScript (executor.go, lines 90-122): the blocks, and the script path or
the error. -/
def prepareScript (host : Host) (id : String) (req : ExecuteRequest) (o : Outcome) :
    List Op × Except String String :=
  let scriptPath := host.tempDir ++ "/k6-script-" ++ id ++ ".js"
  let write (ops : List Op) : List Op × Except String String :=
    match o.writeFile with
    | some e => (ops, .error ("写入脚本文件失败: " ++ e))
    | none => (ops ++ [.addLog ("脚本文件已准备: " ++ scriptPath)], .ok scriptPath)
  if req.ScriptContent ≠ "" then
    write [.addLog "正在准备脚本文件...", .addLog "使用提供的脚本内容"]
  else if req.ScriptID ≠ "" then
    match o.download with
    | .error e => ([.addLog "正在准备脚本文件..."], .error ("下载脚本失败: " ++ e))
    | .ok _ => write [.addLog "正在准备脚本文件...", .addLog ("已下载脚本 ID: " ++ req.ScriptID)]
  else ([.addLog "正在准备脚本文件..."], .error "未提供脚本内容或脚本ID")

/-- Flag and value for an option of the request, when the option is present. -/
def optionArg (opts : GoMap JVal) (key flag : String) : List String :=
  match opts.get key with
  | some v => [flag, v.render]
  | none => []

/-- Arguments of the k6 command (executor.go, lines 161-198). The parameter map is
walked in the order of the list. -/
def k6Args (req : ExecuteRequest) (scriptPath : String) : List String :=
  ["run", "--out", "json=results.json"]
  ++ (match req.Options with
      | some opts =>
        optionArg opts "vus" "--vus" ++ optionArg opts "duration" "--duration"
        ++ optionArg opts "iterations" "--iterations" ++ optionArg opts "stages" "--stage"
      | none => [])
  ++ (match req.Parameters with
      | some ps => (ps.map fun kv => ["-e", kv.1 ++ "=" ++ kv.2.render]).flatten
      | none => [])
  ++ [scriptPath]

/-- buildK6Command (executor.go, lines 157-205): the blocks and the command line.
It never returns an error. -/
def buildK6Command (host : Host) (req : ExecuteRequest) (scriptPath : String) :
    List Op × List String :=
  let args := k6Args req scriptPath
  ([.addLog "正在构建k6命令...",
    .addLog ("k6命令: " ++ host.k6Binary ++ " " ++ String.intercalate " " args)],
   host.k6Binary :: args)

/-- Blocks of the two `readOutput` goroutines for the lines they have handled
when `cmd.Wait()` returns (executor.go, lines 257-267); the lines they handle
later are events of the environment. -/
def readOutput (output : List (String × String)) : List Op :=
  (output.map fun sl => [Op.addLog ("[" ++ sl.1 ++ "] " ++ sl.2), Op.parseProgress sl.2]).flatten

/-- runK6Command (executor.go, lines 208-254). The readers are started with `go`
and `cmd.Wait()` does not wait for them: `output` holds the lines handled before
it returns, the others come as `Ev.readerLog` and `Ev.readerProgress`. -/
def runK6Command (o : Outcome) (argv : List String) : List Op × Option String :=
  let pre : List Op := [.addLog "开始执行k6测试..."]
  match o.stdoutPipe with
  | some e => (pre, some e)
  | none =>
    match o.stderrPipe with
    | some e => (pre, some e)
    | none =>
      match o.start with
      | some e => (pre, some e)
      | none => (pre ++ [.exec argv] ++ readOutput o.output ++ [.waitDone o.wait], o.wait)

/-- processResult (executor.go, lines 285-309). -/
def processResult (o : Outcome) (req : ExecuteRequest) : List Op :=
  [.addLog "正在处理执行结果..."]
  ++ (match o.results with
      | .parsed r => [.setResult r, .addLog "结果解析成功"]
      | .invalid e => [.addLog ("结果解析失败: " ++ e)]
      | _ => [])
  ++ (if req.CallbackURL ≠ "" then [.sendCallback req.CallbackURL] else [])

/-- Body of `Execute` when nothing panics (executor.go, lines 44-87). -/
def executeBody (host : Host) (id : String) (req : ExecuteRequest) (o : Outcome) :
    List Op × Option String :=
  let p := prepareScript host id req o
  match p.2 with
  | .error e => (.setStatus "running" :: p.1 ++ [.handleTaskError "脚本准备失败" e], some e)
  | .ok scriptPath =>
    let b := buildK6Command host req scriptPath
    let k := runK6Command o b.2
    match k.2 with
    | some e =>
      (.setStatus "running" :: p.1 ++ b.1 ++ [.setCmd b.2] ++ k.1 ++ [.handleTaskError "执行失败" e],
       some e)
    | none =>
      (.setStatus "running" :: p.1 ++ b.1 ++ [.setCmd b.2] ++ k.1 ++ processResult o req, none)

/-- Execute (executor.go, lines 44-87). When a block of the body panics, the blocks
before it have run, the deferred function recovers, and `Execute`, whose result
is unnamed, returns the zero value `nil`. -/
def Execute (host : Host) (id : String) (req : ExecuteRequest) (o : Outcome) :
    List Op × Option String :=
  let body := executeBody host id req o
  match o.fault with
  | some (k, v) => if k < body.1.length then (body.1.take k ++ [.recovered v], none) else body
  | none => body

/-- executeK6Job (agent.go, lines 706-716). -/
def executeK6Job (host : Host) (job : Job) (o : Outcome) : List Op × Option String :=
  Execute host job.ID
    { ScriptID := job.ScriptID, ScriptContent := job.ScriptContent, Parameters := job.Params } o

/-- Blocks that store and broadcast the captured output of a finished process
(agent.go, lines 744-754). -/
def captured (o : Outcome) : List Op :=
  (if o.stdout ≠ "" then [Op.appendLog ("STDOUT: " ++ o.stdout)] else [])
  ++ (if o.stderr ≠ "" then [Op.appendLog ("STDERR: " ++ o.stderr)] else [])

/-- End of the shell, python and docker adapters once the process has returned
(agent.go, lines 756-762). -/
def closeAdapter (job : Job) (o : Outcome) (pre : List Op) (failed done : String) :
    List Op × Option String :=
  match o.runErr with
  | some e => (pre ++ captured o ++ [.reportJobStatus job.ID "failed" 0.5 (failed ++ e)], some e)
  | none => (pre ++ captured o ++ [.reportJobStatus job.ID "completed" 1.0 done], none)

/-- executeShellJob (agent.go, lines 719-763). -/
def executeShellJob (host : Host) (job : Job) (o : Outcome) : List Op × Option String :=
  if job.Command = "" then ([], some "Shell任务缺少命令")
  else
    let argv :=
      if host.goos = "windows" then ["powershell", "-Command", job.Command]
      else ["/bin/sh", "-c", job.Command]
    closeAdapter job o
      [.setStatus "running", .reportJobStatus job.ID "running" 0.1 "开始执行Shell命令", .exec argv]
      "Shell命令执行失败: " "Shell命令执行完成"

/-- executePythonJob (agent.go, lines 766-816). -/
def executePythonJob (host : Host) (job : Job) (o : Outcome) : List Op × Option String :=
  if job.ScriptContent = "" then ([], some "Python任务缺少脚本内容")
  else
    let pre : List Op :=
      [.setStatus "running", .reportJobStatus job.ID "running" 0.1 "开始执行Python脚本"]
    let tempDir := host.tempDir ++ "/k6-agent/" ++ job.ID
    match o.mkdir with
    | some e => (pre, some ("创建临时目录失败: " ++ e))
    | none =>
      match o.writeFile with
      | some e => (pre, some ("写入脚本文件失败: " ++ e))
      | none =>
        closeAdapter job o (pre ++ [.exec ["python", tempDir ++ "/script.py"]])
          "Python脚本执行失败: " "Python脚本执行完成"

/-- Test `unicode.IsSpace`: tab, line feed, vertical tab, form feed, carriage
return, space, U+0085, U+00A0 and the other characters with the White_Space
property. -/
def isSpace (c : Char) : Bool :=
  (9 ≤ c.toNat && c.toNat ≤ 13) || c.toNat = 32 || c.toNat = 133 || c.toNat = 160
    || c.toNat = 5760 || (8192 ≤ c.toNat && c.toNat ≤ 8202) || c.toNat = 8232
    || c.toNat = 8233 || c.toNat = 8239 || c.toNat = 8287 || c.toNat = 12288

/-- Fields of the characters still to read, `word` being the characters of the
field under way. -/
def fieldsFrom (word : List Char) : List Char → List String
  | [] => if word.isEmpty then [] else [String.mk word]
  | c :: rest =>
    if isSpace c then
      if word.isEmpty then fieldsFrom [] rest else String.mk word :: fieldsFrom [] rest
    else fieldsFrom (word ++ [c]) rest

/-- Value of `strings.Fields`: the maximal runs of characters that are not spaces,
in order; no field is empty. -/
def fields (s : String) : List String :=
  fieldsFrom [] s.data

/-- executeDockerJob (agent.go, lines 819-862). -/
def executeDockerJob (job : Job) (o : Outcome) : List Op × Option String :=
  if job.Command = "" then ([], some "Docker任务缺少命令")
  else
    let pre : List Op :=
      [.setStatus "running", .reportJobStatus job.ID "running" 0.1 "开始执行Docker命令"]
    let args := fields job.Command
    if args.length = 0 then (pre, some "无效的Docker命令")
    else
      closeAdapter job o (pre ++ [.exec ("docker" :: args)])
        "Docker命令执行失败: " "Docker命令执行完成"

/-! ## The lifecycle controller -/

/-- The `switch` of `executeJob` (agent.go, lines 453-465). -/
def adapter (host : Host) (job : Job) (o : Outcome) : List Op × Option String :=
  if job.Type_ = "k6" then executeK6Job host job o
  else if job.Type_ = "shell" then executeShellJob host job o
  else if job.Type_ = "python" then executePythonJob host job o
  else if job.Type_ = "docker" then executeDockerJob job o
  else ([], some ("不支持的任务类型: " ++ job.Type_))

/-- Blocks of `executeJob` once the task is in the registry
(agent.go, lines 450-485). -/
def lifecycle (host : Host) (job : Job) (o : Outcome) : List Op :=
  [.reportJobStatus job.ID "running" 0 "任务开始执行"]
  ++ (adapter host job o).1
  ++ [.finish (adapter host job o).2, .reportJobResult job.ID, .closeLogChan]

/-- State in which the goroutine of `executeJob` starts its blocks: the new task,
the clock at its creation. -/
def startState (host : Host) (job : Job) (now : Nat) : RunState :=
  { task := newTask host job now, clock := now }

/-- Steps of one execution of `executeJob` under a schedule of the environment. -/
def jobActs (host : Host) (job : Job) (o : Outcome) (sched : List (List Ev)) : List Act :=
  weave (lifecycle host job o) sched

/-- executeJob (agent.go, lines 416-486) for the job alone in the registry under
its id: the agent once the goroutine has finished, and the final run state. -/
def executeJob (host : Host) (a : Agent) (job : Job) (now : Nat) (o : Outcome)
    (sched : List (List Ev)) : Agent × RunState :=
  let s := run host (startState host job now) (jobActs host job o sched)
  ({ a with tasks := (insertTask host a job now).tasks.put job.ID s.task }, s)

/-- State of the task of `executeJob` after the first `n` steps of its run. -/
def stateAfter (host : Host) (job : Job) (now : Nat) (o : Outcome) (sched : List (List Ev))
    (n : Nat) : RunState :=
  run host (startState host job now) ((jobActs host job o sched).take n)

/-- Statuses carried by the result reports found in an outbox. -/
def reportedStatuses (outbox : List Wire) : List String :=
  outbox.filterMap fun w =>
    match w with
    | .result r => some r.Status
    | _ => none

/-! ## Log subscribers (agent.go, lines 648-703) -/

/-- Add a connection to the client set of a task: `task.Clients[conn] = true`. -/
def addClient (task : Task) (conn : Nat) : Task :=
  { task with Clients := if conn ∈ task.Clients then task.Clients else task.Clients ++ [conn] }

/-- Replay of the history to a new connection (agent.go, lines 673-675): one
message per line of the log, in order. A message is the connection and the text. -/
def replayHistory (task : Task) (conn : Nat) : List (Nat × String) :=
  task.Status.Logs.map fun line => (conn, line)

/-- Fan-out goroutine (agent.go, lines 678-689) on the lines that sit in the queue:
each line is taken from the channel and written to every client. Every write is
taken to succeed. -/
def fanOut (task : Task) : Task × List (Nat × String) :=
  ({ task with LogChan := [] },
   (task.LogChan.map fun line => task.Clients.map fun c => (c, line)).flatten)

/-- HandleWebSocket (agent.go, lines 648-689) up to the point where the new
connection waits for its peer: the agent, the HTTP error if any, and the messages
written, in order. `upgraded` tells whether the upgrade succeeded. -/
def HandleWebSocket (a : Agent) (taskID : String) (conn : Nat) (upgraded : Bool) :
    Agent × Option Response × List (Nat × String) :=
  match a.tasks.get taskID with
  | none => (a, some { code := 404, body := [("error", .str "任务不存在")] }, [])
  | some task =>
    if upgraded then
      let joined := addClient task conn
      let drained := fanOut joined
      ({ a with tasks := a.tasks.put taskID drained.1 }, none,
       replayHistory joined conn ++ drained.2)
    else (a, none, [])

/-- Texts written to one connection, in order. -/
def receivedBy (conn : Nat) (messages : List (Nat × String)) : List String :=
  (messages.filter fun m => m.1 = conn).map fun m => m.2

/-! ## Control loops and the info handler -/

/-- Result of an HTTP request of the agent: a transport error, or a status code,
the result of reading the body, and the JSON object the body decodes to, if any. -/
inductive HttpResult where
  | failed (err : String)
  | answered (status : Nat) (body : Except String String) (json : Option (GoMap JVal))

/-- register (agent.go, lines 226-274): the agent afterwards and the error returned. -/
def register (a : Agent) (post : HttpResult) : Agent × Option String :=
  match post with
  | .failed e => (a, some ("发送注册请求失败: " ++ e))
  | .answered status body json =>
    if status ≠ 200 ∧ status ≠ 201 then
      (a, some ("注册失败，状态码: " ++ toString status ++ ", 响应: "
        ++ (match body with
            | .ok text => text
            | .error _ => "")))
    else
      match body with
      | .error e => (a, some ("读取注册响应失败: " ++ e))
      | .ok _ =>
        let renamed : Agent :=
          match json with
          | some agentData =>
            match agentData.get "id" with
            | some (.str idStr) => { a with info := { a.info with AgentID := idStr } }
            | _ => a
          | none => a
        ({ renamed with registered := true }, none)

/-- The two loops that `Start` launches as goroutines. -/
inductive Loop where
  | heartbeat
  | jobPolling
deriving DecidableEq, Repr

/-- Start (agent.go, lines 202-217): the agent, the error returned and the loops
launched. -/
def Start (a : Agent) (post : HttpResult) : Agent × Option String × List Loop :=
  match register a post with
  | (a1, some err) => (a1, some err, [])
  | (a1, none) => (a1, none, [.heartbeat, .jobPolling])

/-- Result of the poll request: a transport error, or a status code, the text of
the body and what the body decodes to (`none` for a null job). -/
inductive PollResult where
  | failed (err : String)
  | answered (status : Nat) (body : String) (decoded : Except String (Option Job))

/-- What a poll tick leaves behind: the agent, the error returned, the URLs
requested and the jobs for which `go a.executeJob(job)` was started. -/
structure Polled where
  agent : Agent
  error : Option String
  requests : List String
  spawned : List Job

/-- pollJob (agent.go, lines 350-383). -/
def pollJob (a : Agent) (get : PollResult) : Polled :=
  if a.registered = false then { agent := a, error := none, requests := [], spawned := [] }
  else
    let url := a.serverURL ++ "/api/v1/agents/jobs/poll?agent_id=" ++ a.info.AgentID
    match get with
    | .failed e =>
      { agent := a, error := some ("发送轮询请求失败: " ++ e), requests := [url], spawned := [] }
    | .answered status body decoded =>
      if status ≠ 200 ∧ status ≠ 201 then
        { agent := a
          error := some ("轮询失败，状态码: " ++ toString status ++ ", 响应: " ++ body)
          requests := [url], spawned := [] }
      else
        match decoded with
        | .error e =>
          { agent := a, error := some ("解析轮询响应失败: " ++ e), requests := [url], spawned := [] }
        | .ok (some job) => { agent := a, error := none, requests := [url], spawned := [job] }
        | .ok none => { agent := a, error := none, requests := [url], spawned := [] }

/-- Bindings a Go map holds: one per key, the one that lookup returns; `seen`
are the keys already met. -/
def GoMap.entriesFrom {α : Type} (seen : List String) : GoMap α → List (String × α)
  | [] => []
  | (k, v) :: rest =>
    if k ∈ seen then GoMap.entriesFrom seen rest
    else (k, v) :: GoMap.entriesFrom (k :: seen) rest

/-- Bindings of a Go map, one per key. -/
def GoMap.entries {α : Type} (m : GoMap α) : List (String × α) :=
  GoMap.entriesFrom [] m

/-- Body of the answer of `GetInfo`. -/
structure InfoResponse where
  code : Nat
  agentId : String
  hostname : String
  version : String
  status : String
  registered : Bool
  totalTasks : Nat
  runningTasks : Nat
  timestamp : Nat
  capabilities : List String
  resources : GoMap Int
  tags : GoMap String
deriving DecidableEq

/-- GetInfo (agent.go, lines 386-413): `len(a.tasks)` and the count of the tasks
whose status is `running`. -/
def GetInfo (a : Agent) (now : Nat) : Agent × InfoResponse :=
  let taskCount := a.tasks.entries.length
  let runningTasks := (a.tasks.entries.filter fun kv => kv.2.Status.Status = "running").length
  (a,
   { code := 200
     agentId := a.info.AgentID
     hostname := a.info.Hostname
     version := "1.0.0"
     status := "online"
     registered := a.registered
     totalTasks := taskCount
     runningTasks := runningTasks
     timestamp := now
     capabilities := ["k6", "shell", "websocket", "realtime-logs"]
     resources := a.info.Resources
     tags := a.info.Tags })

/-- Result reports found in an outbox, in order. -/
def resultReports (outbox : List Wire) : List JobResultRequest :=
  outbox.filterMap fun w =>
    match w with
    | .result r => some r
    | _ => none

/-- Error with which `executeJob` rejects a job before any process is launched:
an unknown kind, a shell or docker job without command, a python job without
script content; `none` for the other jobs. -/
def validationError (job : Job) : Option String :=
  if job.Type_ = "k6" then none
  else if job.Type_ = "shell" then
    if job.Command = "" then some "Shell任务缺少命令" else none
  else if job.Type_ = "python" then
    if job.ScriptContent = "" then some "Python任务缺少脚本内容" else none
  else if job.Type_ = "docker" then
    if job.Command = "" then some "Docker任务缺少命令" else none
  else some ("不支持的任务类型: " ++ job.Type_)

/-- Value of the digits of a decimal rendering read from the left, starting
from `acc`. -/
def readDecimal (acc : Nat) (digits : List Char) : Nat :=
  digits.foldl (fun n c => n * 10 + (c.toNat - 48)) acc

/-! ## Predicates used to state and prove the properties -/

def rawErrorsNonempty (o : Outcome) : Prop :=
  o.stdoutPipe ≠ some "" ∧ o.stderrPipe ≠ some "" ∧ o.start ≠ some ""
    ∧ o.wait ≠ some "" ∧ o.runErr ≠ some ""

/-- Blocks that write the status alone. -/
def Op.writesStatusOnly : Op → Bool
  | .setStatus _ => true
  | _ => false

/-- Blocks that touch neither the status nor the end time. -/
def Op.neutral : Op → Bool
  | .setStatus _ => false
  | .handleTaskError _ _ => false
  | .waitDone _ => false
  | .recovered _ => false
  | .finish _ => false
  | _ => true

/-- No step of the list writes the status alone. -/
def settledActs (acts : List Act) : Bool :=
  acts.all fun a =>
    match a with
    | .env _ => true
    | .life o => !o.writesStatusOnly

/-- Shape of a run: the status is written alone at most once, to `running`, and
before any block that ends the task. -/
def stagedActs : List Act → Bool
  | [] => true
  | .env _ :: rest => stagedActs rest
  | .life (.setStatus s) :: rest => s == "running" && settledActs rest
  | .life o :: rest => if o.neutral then stagedActs rest else settledActs rest

/-- The same shape for the blocks of the goroutine. -/
def stagedOps : List Op → Bool
  | [] => true
  | .setStatus s :: rest => s == "running" && rest.all fun o => !o.writesStatusOnly
  | o :: rest => if o.neutral then stagedOps rest else rest.all fun o => !o.writesStatusOnly

/-- The end time is set exactly in the terminal states. -/
def endTimeMatchesStatus (t : Task) : Prop :=
  t.Status.EndTime.isSome = isTerminal t.Status.Status

/-- State of a task nothing has run on yet. -/
def isFresh (t : Task) : Prop :=
  t.Status.Status = "pending" ∧ t.Status.EndTime = none

/-- No block of the list writes the status alone. -/
def noSet (ops : List Op) : Bool :=
  ops.all fun o => !o.writesStatusOnly

/-! ## Concrete inputs used to exercise the definitions -/

/-- Host whose duration parser knows `10ms` only and whose timestamps are `T`. -/
def demoHost : Host :=
  { parseDuration := fun s => if s = "10ms" then some 10000000 else none
    formatTime := fun _ => "T" }

/-- Freshly created agent: nothing in the registry. -/
def freshAgent : Agent :=
  { info := { AgentID := "agent-host-0" } }

/-- Task as `TestStopTask` builds it: running, no end time. -/
def runningTask : Task :=
  { Status := { ID := "test-task-456", Status := "running", StartTime := 7 } }

/-- Agent whose registry holds one running and one completed task. -/
def busyAgent : Agent :=
  { info := { AgentID := "agent-host-0" }
    tasks :=
      [("test-task-456", runningTask),
       ("done-1",
        { Status := { ID := "done-1", Status := "completed", StartTime := 1, EndTime := some 5,
                      Progress := 1 } })] }

/-- Shell job that sleeps for a second under a timeout of ten milliseconds. -/
def sleepJob : Job :=
  { ID := "j1", Type_ := "shell", Command := "sleep 1", Timeout := "10ms" }

/-- Shell job that prints a word. -/
def echoJob : Job :=
  { ID := "j3", Type_ := "shell", Command := "echo hi" }

/-- Load-test job with an inline script. -/
def inlineK6Job : Job :=
  { ID := "j2", Type_ := "k6", ScriptContent := "export default function() {}" }

/-- The process was killed: `cmd.Run()` returns the error of a killed process. -/
def killedOutcome : Outcome :=
  { runErr := some "signal: killed" }

/-- Ten milliseconds pass while the shell process runs, so the deadline of the
context expires before `cmd.Run()` returns. -/
def deadlineSched : List (List Ev) :=
  [[], [], [], [], [.elapse 10000000]]

/-- A stop request is served while the shell process runs. -/
def stopSched : List (List Ev) :=
  [[], [], [], [], [.elapse 5, .stopRequest]]

/-- Load-test job with an inline script and a timeout of ten milliseconds. -/
def timedK6Job : Job :=
  { ID := "j2", Type_ := "k6", ScriptContent := "export default function() {}",
    Timeout := "10ms" }

/-- The k6 process printed one line and was killed: `cmd.Wait()` returns an error. -/
def k6KilledOutcome : Outcome :=
  { output := [("stdout", "running (0m01.0s/0m30s)")], wait := some "signal: killed" }

/-- The deadline of the context expires while the k6 process runs. -/
def k6DeadlineSched : List (List Ev) :=
  List.replicate 10 [] ++ [[.elapse 3], [], [.elapse 10000000]]

/-- The fourth block of `Execute` panics with the value `boom`. -/
def faultOutcome : Outcome :=
  { fault := some (3, "boom") }

/-- The shell process exits with status 1. -/
def exitOneOutcome : Outcome :=
  { stdout := "hi", runErr := some "exit status 1" }

/-! ## Predicates and inputs for the control loops, the subscribers and the reports -/

/-- Id that the response body assigns: the value of `id` when the body is a JSON
object in which `id` is a string. -/
def assignedID (json : Option (GoMap JVal)) : Option String :=
  match json with
  | some agentData =>
    match agentData.get "id" with
    | some (.str idStr) => some idStr
    | _ => none
  | none => none

/-- Registration went through: the server answered 200 or 201 and the body of the
answer was read. -/
def registrationSucceeds (post : HttpResult) : Bool :=
  match post with
  | .answered status (.ok _) _ => decide (status = 200 ∨ status = 201)
  | _ => false

/-- Task that failed after two and a half milliseconds, its process having
exited with status 1. -/
def failedShellTask : Task :=
  { Status :=
      { ID := "j3", Status := "failed", StartTime := 1000000, EndTime := some 3500000,
        Logs := ["STDOUT: hi", "STDERR: oops"], Error := "exit status 1" } }

/-- Registered agent with an empty registry. -/
def registeredAgent : Agent :=
  { info := { AgentID := "srv-uuid-1" }, serverURL := "http://localhost:3001", registered := true }

/-- Answer 201 whose body is a JSON object with the string id `srv-uuid-1`. -/
def createdReply : HttpResult :=
  .answered 201 (.ok "agent") (some [("id", .str "srv-uuid-1"), ("status", .str "online")])

/-- Answer 200 whose body follows `RegisterResponse`: status and message, no id. -/
def plainReply : HttpResult :=
  .answered 200 (.ok "registered") (some [("status", .str "success"), ("message", .str "ok")])

/-- Answer 200 whose body carries a numeric id. -/
def numericReply : HttpResult :=
  .answered 200 (.ok "agent") (some [("id", .other "42")])

/-- Answer 200 whose body cannot be read. -/
def brokenReply : HttpResult :=
  .answered 200 (.error "unexpected EOF") none

/-- Answer 500. -/
def serverErrorReply : HttpResult :=
  .answered 500 (.ok "internal error") none

/-- Registry entry of the inline k6 job after its first two log lines, nobody
having read its queue. -/
def loggingTask : Task :=
  (stateAfter demoHost inlineK6Job 0 {} [] 4).task

/-- Agent whose registry holds that task. -/
def loggingAgent : Agent :=
  { freshAgent with tasks := [("j2", loggingTask)] }

/-- Blocks with which `executeJob` ends: the result report and the closing of
the channel. -/
def Op.endsJob : Op → Bool
  | .reportJobResult _ => true
  | .closeLogChan => true
  | _ => false

/-- No block of the list sends the result report or closes the channel. -/
def noEnd (ops : List Op) : Bool :=
  ops.all fun o => !o.endsJob

/-- The process is alive and the channel of the task is open. -/
def isOpen (s : RunState) : Prop :=
  s.crashed = false ∧ s.task.LogChanClosed = false

/-- Two states of a task with the same status, error, end time and start time. -/
def sameVerdict (t u : Task) : Prop :=
  u.Status.Status = t.Status.Status ∧ u.Status.Error = t.Status.Error
    ∧ u.Status.EndTime = t.Status.EndTime ∧ u.Status.StartTime = t.Status.StartTime

/-- Blocks of a job that is rejected before its adapter does anything: the
status pings, the final block with an error, the report and the closing. -/
def Op.quiet : Op → Bool
  | .reportJobStatus _ _ _ _ => true
  | .finish (some _) => true
  | .reportJobResult _ => true
  | .closeLogChan => true
  | _ => false

/-- Steps of a run made of such blocks and of events of the environment. -/
def quietActs (acts : List Act) : Bool :=
  acts.all fun a =>
    match a with
    | .env _ => true
    | .life o => o.quiet

/-- The task is still pending or has failed, and no process was launched. -/
def untouched (s : RunState) : Prop :=
  (s.task.Status.Status = "pending" ∨ s.task.Status.Status = "failed") ∧ s.launched = []

/-- Job of a kind the agent does not know. -/
def rubyJob : Job :=
  { ID := "j4", Type_ := "ruby", Command := "puts 1" }

/-- After the final block of `executeJob`, before the result report, a reader of
the k6 output handles one more line. -/
def lateReaderSched : List (List Ev) :=
  List.replicate 13 []
    ++ [[.readerLog "stdout" "running (0m30.0s/0m30s)",
         .readerProgress "running (0m30.0s/0m30s)"]]

/-- Lookup of the id `k` in the registry finds a task whose status is `running`. -/
def runningAt (m : GoMap Task) (k : String) : Bool :=
  match m.get k with
  | some task => decide (task.Status.Status = "running")
  | none => false

/-- State in which `executeJob` has left the inline k6 job when nothing went
wrong: the channel of the task is closed. -/
def endedRun : RunState :=
  (executeJob demoHost freshAgent inlineK6Job 0 {} []).2

/-! ## Registry lemmas -/

theorem GoMap.get_put_same {α : Type} (m : GoMap α) (k : String) (v : α) :
    (m.put k v).get k = some v := by
  induction m with
  | nil => simp [GoMap.put, GoMap.get]
  | cons hd tl ih =>
    obtain ⟨k0, w⟩ := hd
    by_cases h : k0 = k
    · simp [GoMap.put, GoMap.get, h]
    · simp [GoMap.put, GoMap.get, h, ih]

theorem GoMap.get_put_other {α : Type} (m : GoMap α) (k k2 : String) (v : α) (h : k ≠ k2) :
    (m.put k v).get k2 = m.get k2 := by
  induction m with
  | nil => simp [GoMap.put, GoMap.get, h]
  | cons hd tl ih =>
    obtain ⟨k0, w⟩ := hd
    by_cases h0 : k0 = k
    · subst h0
      simp [GoMap.put, GoMap.get, h]
    · by_cases h2 : k0 = k2
      · subst h2
        simp [GoMap.put, GoMap.get, h0]
      · simp [GoMap.put, GoMap.get, h0, h2, ih]

theorem GoMap.put_get_self {α : Type} (m : GoMap α) (k : String) (v : α)
    (h : m.get k = some v) : m.put k v = m := by
  induction m with
  | nil => simp [GoMap.get] at h
  | cons hd tl ih =>
    obtain ⟨k0, w⟩ := hd
    by_cases h0 : k0 = k
    · simp [GoMap.get, h0] at h
      simp [GoMap.put, h0, h]
    · simp [GoMap.get, h0] at h
      simp [GoMap.put, h0, ih h]

theorem stopTaskBody_of_not_running (task : Task) (now : Nat)
    (h : task.Status.Status ≠ "running") : stopTaskBody task now = task := by
  simp [stopTaskBody, h]

theorem stopTaskBody_status_ne_running (task : Task) (now : Nat) :
    (stopTaskBody task now).Status.Status ≠ "running" := by
  unfold stopTaskBody
  split
  · simp
  · assumption

/-! ## Claims about the registry and the handlers -/

/-- C7: right after `executeJob` has put its task into the registry, looking up the
id of the job yields a task with status `pending`, the id of the job, progress 0,
an empty log and no end time. -/
theorem executeJob_insert_pending (host : Host) (a : Agent) (job : Job) (now : Nat) :
    ∃ task, (insertTask host a job now).tasks.get job.ID = some task
      ∧ task.Status.Status = "pending" ∧ task.Status.ID = job.ID
      ∧ task.Status.Progress = 0 ∧ task.Status.Logs = [] ∧ task.Status.EndTime = none :=
  ⟨newTask host job now, GoMap.get_put_same _ _ _, rfl, rfl, rfl, rfl, rfl⟩

/-- C8: for a registry that holds a task with status `running` under `t`,
`StopTask` answers 200 with a message, cancels the context of the task and leaves
the task `stopped` with its end time set. -/
theorem StopTask_running (a : Agent) (t : String) (task : Task) (now : Nat)
    (hget : a.tasks.get t = some task) (hrun : task.Status.Status = "running") :
    (StopTask a t now).2.code = 200
      ∧ (StopTask a t now).2.body.get "message" = some (.str "任务已停止")
      ∧ ∃ stopped, (StopTask a t now).1.tasks.get t = some stopped
          ∧ stopped.Ctx.cancelled = true
          ∧ stopped.Status.Status = "stopped"
          ∧ stopped.Status.EndTime = some now := by
  refine ⟨?_, ?_, stopTaskBody task now, ?_, ?_, ?_, ?_⟩
  · simp [StopTask, hget]
  · simp [StopTask, hget, GoMap.get]
  · simp [StopTask, hget, GoMap.get_put_same]
  · simp [stopTaskBody, hrun]
  · simp [stopTaskBody, hrun]
  · simp [stopTaskBody, hrun]

/-- Witness for C8 on the registry of `TestStopTask`. -/
theorem StopTask_running_witness :
    (StopTask busyAgent "test-task-456" 9).2.code = 200
      ∧ (StopTask busyAgent "test-task-456" 9).2.body.get "message" = some (.str "任务已停止")
      ∧ ∃ stopped, (StopTask busyAgent "test-task-456" 9).1.tasks.get "test-task-456" = some stopped
          ∧ stopped.Ctx.cancelled = true
          ∧ stopped.Status.Status = "stopped"
          ∧ stopped.Status.EndTime = some 9 :=
  StopTask_running busyAgent "test-task-456" runningTask 9 (by decide) (by decide)

/-- C9: `StopTask` on a task that is present and not `running` answers 200 and
changes nothing; for any present task, stopping a second time gives the state and
the response of stopping once; for an absent id it answers 404 and changes nothing. -/
theorem StopTask_idempotent (a : Agent) (t : String) (now later : Nat) :
    (∀ task, a.tasks.get t = some task → task.Status.Status ≠ "running" →
        StopTask a t now = (a, { code := 200, body := [("message", .str "任务已停止")] }))
      ∧ (∀ task, a.tasks.get t = some task →
        StopTask (StopTask a t now).1 t later = StopTask a t now)
      ∧ (a.tasks.get t = none →
        StopTask a t now = (a, { code := 404, body := [("error", .str "任务不存在")] })) := by
  refine ⟨?_, ?_, ?_⟩
  · intro task hget hrun
    simp [StopTask, hget, stopTaskBody_of_not_running task now hrun,
      GoMap.put_get_self a.tasks t task hget]
  · intro task hget
    have h1 : (StopTask a t now).1.tasks.get t = some (stopTaskBody task now) := by
      simp [StopTask, hget, GoMap.get_put_same]
    have h2 : stopTaskBody (stopTaskBody task now) later = stopTaskBody task now :=
      stopTaskBody_of_not_running _ _ (stopTaskBody_status_ne_running task now)
    have h3 : StopTask a t now
        = ({ a with tasks := a.tasks.put t (stopTaskBody task now) },
           { code := 200, body := [("message", .str "任务已停止")] }) := by
      simp [StopTask, hget]
    have h4 : (a.tasks.put t (stopTaskBody task now)).get t = some (stopTaskBody task now) :=
      GoMap.get_put_same _ _ _
    rw [h3]
    simp only [StopTask, h4, h2]
    rw [GoMap.put_get_self _ _ _ h4]
  · intro hget
    simp [StopTask, hget]

/-- Witness for C9: a completed task, a running task stopped twice, an absent id. -/
theorem StopTask_idempotent_witness :
    StopTask busyAgent "done-1" 9
        = (busyAgent, { code := 200, body := [("message", .str "任务已停止")] })
      ∧ StopTask (StopTask busyAgent "test-task-456" 9).1 "test-task-456" 12
        = StopTask busyAgent "test-task-456" 9
      ∧ StopTask busyAgent "nonexistent" 9
        = (busyAgent, { code := 404, body := [("error", .str "任务不存在")] }) :=
  ⟨(StopTask_idempotent busyAgent "done-1" 9 12).1 _ (by rfl) (by decide),
   (StopTask_idempotent busyAgent "test-task-456" 9 12).2.1 runningTask (by rfl),
   (StopTask_idempotent busyAgent "nonexistent" 9 12).2.2 (by rfl)⟩

/-- C10: for a well-formed request `ExecuteScript` answers 200 with the task id and
status `pending`, but it only starts the goroutine of `executeJob`: when the handler
returns the registry is the one it found, so on a fresh agent the task id it has
just answered is not in the registry yet. -/
theorem ExecuteScript_registry_at_return (req : ExecuteRequest) (now : Nat) :
    (ExecuteScript freshAgent (.ok req) now).response.code = 200
      ∧ (ExecuteScript freshAgent (.ok req) now).response.body.get "taskId"
          = some (.str (generateTaskID now))
      ∧ (ExecuteScript freshAgent (.ok req) now).response.body.get "status"
          = some (.str "pending")
      ∧ (ExecuteScript freshAgent (.ok req) now).spawned.map Job.ID = [generateTaskID now]
      ∧ (ExecuteScript freshAgent (.ok req) now).agent.tasks.get (generateTaskID now) = none := by
  simp [ExecuteScript, GoMap.get, freshAgent]

/-! ## Runs of the lifecycle goroutine -/

theorem run_append (host : Host) (s : RunState) (xs ys : List Act) :
    run host s (xs ++ ys) = run host (run host s xs) ys := by
  simp [run, List.foldl_append]

theorem run_cons (host : Host) (s : RunState) (x : Act) (xs : List Act) :
    run host s (x :: xs) = run host (step host s x) xs := rfl

theorem weave_cons (o : Op) (ops : List Op) (sched : List (List Ev)) :
    weave (o :: ops) sched
      = (sched.headD []).map Act.env ++ Act.life o :: weave ops sched.tail := by
  cases sched <;> simp [weave]

theorem weave_append (xs ys : List Op) (sched : List (List Ev)) :
    weave (xs ++ ys) sched = weave xs sched ++ weave ys (sched.drop xs.length) := by
  induction xs generalizing sched with
  | nil => simp [weave]
  | cons x xs ih =>
    cases sched with
    | nil => simpa [weave] using ih []
    | cons evs rest => simp [weave, ih rest]

/-! ### What a send leaves -/

theorem offer_of_open (q : List String) (line : String) :
    offer false q line = some (if q.length < 100 then q ++ [line] else q) := by
  unfold offer logChanCap
  simp only [Bool.false_eq_true, if_false]
  split <;> rfl

theorem offer_of_closed (q : List String) (line : String) : offer true q line = none := rfl

theorem trySend_status (task : Task) (line : String) :
    (trySend task line).task.Status = task.Status := by
  cases hc : task.LogChanClosed <;> simp [trySend, hc, offer_of_open, offer_of_closed]

theorem trySend_closed (task : Task) (line : String) :
    (trySend task line).task.LogChanClosed = task.LogChanClosed := by
  cases hc : task.LogChanClosed <;> simp [trySend, hc, offer_of_open, offer_of_closed]

theorem trySend_panicked (task : Task) (line : String) :
    (trySend task line).panicked = task.LogChanClosed := by
  cases hc : task.LogChanClosed <;> simp [trySend, hc, offer_of_open, offer_of_closed]

theorem trySend_queue (task : Task) (line : String) (h : task.LogChanClosed = false) :
    (trySend task line).task.LogChan
      = (if task.LogChan.length < 100 then task.LogChan ++ [line] else task.LogChan) := by
  simp [trySend, h, offer_of_open]

theorem trySend_queue_closed (task : Task) (line : String) (h : task.LogChanClosed = true) :
    (trySend task line).task.LogChan = task.LogChan := by
  simp [trySend, h, offer_of_closed]

theorem addLog_status (host : Host) (task : Task) (now : Nat) (m : String) :
    (addLog host task now m).task.Status
      = { task.Status with Logs := task.Status.Logs ++ ["[" ++ host.formatTime now ++ "] " ++ m] } := by
  simp [addLog, trySend_status]

theorem addLog_closed (host : Host) (task : Task) (now : Nat) (m : String) :
    (addLog host task now m).task.LogChanClosed = task.LogChanClosed := by
  simp [addLog, trySend_closed]

theorem addLog_panicked (host : Host) (task : Task) (now : Nat) (m : String) :
    (addLog host task now m).panicked = task.LogChanClosed := by
  simp [addLog, trySend_panicked]

theorem appendAndBroadcast_status (task : Task) (line : String) :
    (appendAndBroadcast task line).task.Status
      = { task.Status with Logs := task.Status.Logs ++ [line] } := by
  simp [appendAndBroadcast, broadcastLog, trySend_status]

theorem appendAndBroadcast_closed (task : Task) (line : String) :
    (appendAndBroadcast task line).task.LogChanClosed = task.LogChanClosed := by
  simp [appendAndBroadcast, broadcastLog, trySend_closed]

theorem appendAndBroadcast_panicked (task : Task) (line : String) :
    (appendAndBroadcast task line).panicked = task.LogChanClosed := by
  simp [appendAndBroadcast, broadcastLog, trySend_panicked]

theorem handleTaskError_status (host : Host) (task : Task) (now : Nat) (m e : String) :
    (handleTaskError host task now m e).task.Status
      = { task.Status with
          Status := "failed", Error := m ++ ": " ++ e, EndTime := some now,
          Logs := task.Status.Logs ++ ["[" ++ host.formatTime now ++ "] " ++ (m ++ ": " ++ e)] } := by
  simp [handleTaskError, addLog_status]

theorem handleTaskError_closed (host : Host) (task : Task) (now : Nat) (m e : String) :
    (handleTaskError host task now m e).task.LogChanClosed = task.LogChanClosed := by
  simp [handleTaskError, addLog_closed]

theorem handleTaskError_panicked (host : Host) (task : Task) (now : Nat) (m e : String) :
    (handleTaskError host task now m e).panicked = task.LogChanClosed := by
  simp [handleTaskError, addLog_panicked]

theorem runK6CommandTail_closed (host : Host) (task : Task) (now : Nat) (err : Option String) :
    (runK6CommandTail host task now err).task.LogChanClosed = task.LogChanClosed := by
  unfold runK6CommandTail
  cases err with
  | none => simp [addLog_closed]
  | some e => dsimp only; split <;> simp [addLog_closed]

theorem runK6CommandTail_panicked (host : Host) (task : Task) (now : Nat) (err : Option String) :
    (runK6CommandTail host task now err).panicked = task.LogChanClosed := by
  unfold runK6CommandTail
  cases err with
  | none => simp [addLog_panicked]
  | some e => dsimp only; split <;> simp [addLog_panicked]

theorem runK6CommandTail_startTime (host : Host) (task : Task) (now : Nat) (err : Option String) :
    (runK6CommandTail host task now err).task.Status.StartTime = task.Status.StartTime := by
  unfold runK6CommandTail
  cases err with
  | none => simp [addLog_status]
  | some e => dsimp only; split <;> simp [addLog_status]

theorem runK6CommandTail_endTime (host : Host) (task : Task) (now : Nat) (err : Option String) :
    (runK6CommandTail host task now err).task.Status.EndTime = some now := by
  unfold runK6CommandTail
  cases err with
  | none => simp [addLog_status]
  | some e => dsimp only; split <;> simp [addLog_status]

theorem runK6CommandTail_terminal (host : Host) (task : Task) (now : Nat) (err : Option String) :
    isTerminal (runK6CommandTail host task now err).task.Status.Status = true := by
  unfold runK6CommandTail
  cases err with
  | none => simp [addLog_status, isTerminal]
  | some e => dsimp only; split <;> simp [addLog_status, isTerminal]

theorem parseProgress_verdict (task : Task) (line : String) :
    (parseProgress task line).Status.Status = task.Status.Status
      ∧ (parseProgress task line).Status.Error = task.Status.Error
      ∧ (parseProgress task line).Status.EndTime = task.Status.EndTime
      ∧ (parseProgress task line).Status.StartTime = task.Status.StartTime
      ∧ (parseProgress task line).LogChanClosed = task.LogChanClosed := by
  unfold parseProgress
  split <;> exact ⟨rfl, rfl, rfl, rfl, rfl⟩

/-! ### Steps -/

theorem step_crashed (host : Host) (s : RunState) (a : Act) (h : s.crashed = true) :
    step host s a = s := by
  simp [step, h]

theorem step_env_alive (host : Host) (s : RunState) (e : Ev) (h : s.crashed = false) :
    step host s (.env e) = e.apply host s := by
  simp [step, h]

theorem step_life_alive (host : Host) (s : RunState) (o : Op) (h : s.crashed = false) :
    step host s (.life o) = o.apply host s := by
  simp [step, h]

theorem run_crashed (host : Host) (s : RunState) (acts : List Act) (h : s.crashed = true) :
    run host s acts = s := by
  induction acts with
  | nil => rfl
  | cons a rest ih => rw [run_cons, step_crashed host s a h, ih]

theorem step_startTime (host : Host) (s : RunState) (a : Act) :
    (step host s a).task.Status.StartTime = s.task.Status.StartTime := by
  cases hc : s.crashed
  · cases a with
    | env e =>
      rw [step_env_alive host s e hc]
      cases e with
      | elapse d => rfl
      | stopRequest =>
        simp only [Ev.apply, stopTaskBody]
        split <;> rfl
      | readerLog src line => simp [Ev.apply, land, addLog_status]
      | readerProgress line => exact (parseProgress_verdict s.task line).2.2.2.1
    | life o =>
      rw [step_life_alive host s o hc]
      cases o <;> simp only [Op.apply, land, addLog_status, appendAndBroadcast_status,
        handleTaskError_status, runK6CommandTail_startTime, recovered, finishJob]
      case parseProgress l => exact (parseProgress_verdict s.task l).2.2.2.1
      case finish err => cases err <;> rfl
  · rw [step_crashed host s a hc]

theorem step_clock_le (host : Host) (s : RunState) (a : Act) :
    s.clock ≤ (step host s a).clock := by
  cases hc : s.crashed
  · cases a with
    | env e =>
      rw [step_env_alive host s e hc]
      cases e <;> simp [Ev.apply, land]
    | life o =>
      rw [step_life_alive host s o hc]
      cases o <;> simp [Op.apply, land]
  · rw [step_crashed host s a hc]

theorem run_startTime (host : Host) (s : RunState) (acts : List Act) :
    (run host s acts).task.Status.StartTime = s.task.Status.StartTime := by
  induction acts generalizing s with
  | nil => rfl
  | cons a rest ih => rw [run_cons, ih, step_startTime]

theorem run_clock_le (host : Host) (s : RunState) (acts : List Act) :
    s.clock ≤ (run host s acts).clock := by
  induction acts generalizing s with
  | nil => exact le_refl _
  | cons a rest ih => rw [run_cons]; exact le_trans (step_clock_le host s a) (ih _)

/-! ### The channel stays open until the last block -/

theorem step_env_open (host : Host) (s : RunState) (e : Ev) (h : isOpen s) :
    isOpen (step host s (.env e)) := by
  obtain ⟨hc, ho⟩ := h
  rw [step_env_alive host s e hc]
  cases e with
  | elapse d => exact ⟨hc, ho⟩
  | stopRequest =>
    refine ⟨hc, ?_⟩
    simp only [Ev.apply, stopTaskBody]
    split <;> exact ho
  | readerLog src line =>
    exact ⟨by simp [Ev.apply, land, addLog_panicked, ho],
      by simp [Ev.apply, land, addLog_closed, ho]⟩
  | readerProgress line =>
    exact ⟨hc, by simp [Ev.apply, (parseProgress_verdict s.task line).2.2.2.2, ho]⟩

theorem step_life_open (host : Host) (s : RunState) (o : Op) (hne : o ≠ .closeLogChan)
    (h : isOpen s) : isOpen (step host s (.life o)) := by
  obtain ⟨hc, ho⟩ := h
  rw [step_life_alive host s o hc]
  cases o <;> simp only [isOpen, Op.apply, land, addLog_panicked, addLog_closed,
    appendAndBroadcast_panicked, appendAndBroadcast_closed, handleTaskError_panicked,
    handleTaskError_closed, runK6CommandTail_panicked, runK6CommandTail_closed, recovered,
    finishJob, hc, ho, and_self]
  case parseProgress l => exact ⟨trivial, (parseProgress_verdict s.task l).2.2.2.2.trans ho⟩
  case finish err => cases err <;> exact ⟨trivial, rfl⟩
  case closeLogChan => exact absurd rfl hne

theorem run_envs_open (host : Host) (s : RunState) (evs : List Ev) (h : isOpen s) :
    isOpen (run host s (evs.map Act.env)) := by
  induction evs generalizing s with
  | nil => exact h
  | cons e rest ih =>
    rw [List.map_cons, run_cons]
    exact ih _ (step_env_open host s e h)

theorem noEnd_cons (o : Op) (rest : List Op) :
    noEnd (o :: rest) = (!o.endsJob && noEnd rest) := by
  simp [noEnd]

theorem run_weave_open (host : Host) (ops : List Op) :
    ∀ (s : RunState) (sched : List (List Ev)), noEnd ops = true → isOpen s →
      isOpen (run host s (weave ops sched)) := by
  induction ops with
  | nil => intro s sched _ h; exact h
  | cons o rest ih =>
    intro s sched hn h
    rw [noEnd_cons, Bool.and_eq_true] at hn
    rw [weave_cons, run_append, run_cons]
    refine ih _ _ hn.2 (step_life_open host _ o ?_ (run_envs_open host s _ h))
    intro ho
    subst ho
    simp [Op.endsJob] at hn
/-! ### Texts of the errors of the adapters -/

theorem append_ne_empty (s t : String) (h : 0 < s.length) : s ++ t ≠ "" := by
  intro hh
  have := congrArg String.length hh
  simp at this
  omega

theorem prepareScript_error_nonempty (host : Host) (id : String) (req : ExecuteRequest)
    (o : Outcome) (e : String) (h : (prepareScript host id req o).2 = .error e) : e ≠ "" := by
  unfold prepareScript at h
  simp only at h
  split at h
  · split at h
    · injection h with h; subst h; exact append_ne_empty _ _ (by decide)
    · simp at h
  · split at h
    · split at h
      · injection h with h; subst h; exact append_ne_empty _ _ (by decide)
      · split at h
        · injection h with h; subst h; exact append_ne_empty _ _ (by decide)
        · simp at h
    · injection h with h; subst h; decide

theorem runK6Command_error_nonempty (o : Outcome) (argv : List String) (e : String)
    (hraw : rawErrorsNonempty o) (h : (runK6Command o argv).2 = some e) : e ≠ "" := by
  obtain ⟨h1, h2, h3, h4, -⟩ := hraw
  unfold runK6Command at h
  simp only at h
  split at h
  · rename_i e1 he; injection h with h; subst h; intro hh; subst hh; exact h1 he
  · split at h
    · rename_i e1 he; injection h with h; subst h; intro hh; subst hh; exact h2 he
    · split at h
      · rename_i e1 he; injection h with h; subst h; intro hh; subst hh; exact h3 he
      · intro hh; subst hh; exact h4 h

theorem executeBody_error_nonempty (host : Host) (id : String) (req : ExecuteRequest)
    (o : Outcome) (e : String) (hraw : rawErrorsNonempty o)
    (h : (executeBody host id req o).2 = some e) : e ≠ "" := by
  unfold executeBody at h
  simp only at h
  split at h
  · rename_i e1 he
    injection h with h; subst h
    exact prepareScript_error_nonempty host id req o _ he
  · split at h
    · rename_i e1 he
      injection h with h; subst h
      exact runK6Command_error_nonempty o _ _ hraw he
    · simp at h

theorem closeAdapter_error_nonempty (job : Job) (o : Outcome) (pre : List Op) (f d e : String)
    (hraw : rawErrorsNonempty o) (h : (closeAdapter job o pre f d).2 = some e) : e ≠ "" := by
  obtain ⟨-, -, -, -, h5⟩ := hraw
  unfold closeAdapter at h
  split at h
  · rename_i e1 he; injection h with h; subst h; intro hh; subst hh; exact h5 he
  · simp at h

theorem adapter_error_nonempty (host : Host) (job : Job) (o : Outcome) (e : String)
    (hraw : rawErrorsNonempty o) (h : (adapter host job o).2 = some e) : e ≠ "" := by
  unfold adapter at h
  split at h
  · unfold executeK6Job Execute at h
    simp only at h
    split at h
    · split at h
      · simp at h
      · exact executeBody_error_nonempty _ _ _ _ _ hraw h
    · exact executeBody_error_nonempty _ _ _ _ _ hraw h
  · split at h
    · unfold executeShellJob at h
      split at h
      · injection h with h; subst h; decide
      · exact closeAdapter_error_nonempty _ _ _ _ _ _ hraw h
    · split at h
      · unfold executePythonJob at h
        split at h
        · injection h with h; subst h; decide
        · simp only at h
          split at h
          · injection h with h; subst h; exact append_ne_empty _ _ (by decide)
          · split at h
            · injection h with h; subst h; exact append_ne_empty _ _ (by decide)
            · exact closeAdapter_error_nonempty _ _ _ _ _ _ hraw h
      · split at h
        · unfold executeDockerJob at h
          split at h
          · injection h with h; subst h; decide
          · simp only at h
            split at h
            · injection h with h; subst h; decide
            · exact closeAdapter_error_nonempty _ _ _ _ _ _ hraw h
        · injection h with h; subst h; exact append_ne_empty _ _ (by decide)

/-! ### The adapters neither report the result nor close the channel -/

theorem noEnd_append (xs ys : List Op) : noEnd (xs ++ ys) = (noEnd xs && noEnd ys) := by
  simp [noEnd, List.all_append]

theorem noEnd_take (xs : List Op) (k : Nat) (h : noEnd xs = true) :
    noEnd (xs.take k) = true := by
  simp only [noEnd, List.all_eq_true] at h ⊢
  intro o ho
  exact h o (List.mem_of_mem_take ho)

theorem noEnd_prepareScript (host : Host) (id : String) (req : ExecuteRequest) (o : Outcome) :
    noEnd (prepareScript host id req o).1 = true := by
  unfold prepareScript
  simp only
  split
  · split <;> simp [noEnd, Op.endsJob]
  · split
    · split
      · simp [noEnd, Op.endsJob]
      · split <;> simp [noEnd, Op.endsJob]
    · simp [noEnd, Op.endsJob]

theorem noEnd_readOutput (output : List (String × String)) :
    noEnd (readOutput output) = true := by
  induction output with
  | nil => rfl
  | cons hd tl ih =>
    simp only [readOutput, List.map_cons, List.flatten_cons] at ih ⊢
    rw [noEnd_append, ih]
    simp [noEnd, Op.endsJob]

theorem noEnd_runK6Command (o : Outcome) (argv : List String) :
    noEnd (runK6Command o argv).1 = true := by
  unfold runK6Command
  simp only
  split
  · simp [noEnd, Op.endsJob]
  · split
    · simp [noEnd, Op.endsJob]
    · split
      · simp [noEnd, Op.endsJob]
      · simp only [noEnd_append, noEnd_readOutput]
        simp [noEnd, Op.endsJob]

theorem noEnd_processResult (o : Outcome) (req : ExecuteRequest) :
    noEnd (processResult o req) = true := by
  unfold processResult
  simp only [noEnd_append]
  split <;> split <;> simp [noEnd, Op.endsJob]

theorem noEnd_captured (o : Outcome) : noEnd (captured o) = true := by
  unfold captured
  simp only [noEnd_append]
  split <;> split <;> simp [noEnd, Op.endsJob]

theorem noEnd_executeBody (host : Host) (id : String) (req : ExecuteRequest) (o : Outcome) :
    noEnd (executeBody host id req o).1 = true := by
  unfold executeBody
  simp only
  split
  · rw [List.cons_append, ← List.singleton_append, noEnd_append, noEnd_append,
      noEnd_prepareScript]
    rfl
  · split
    · rw [← List.singleton_append]
      simp only [noEnd_append, noEnd_prepareScript, noEnd_runK6Command]
      rfl
    · rw [← List.singleton_append]
      simp only [noEnd_append, noEnd_prepareScript, noEnd_runK6Command,
        noEnd_processResult]
      rfl

theorem noEnd_closeAdapter (job : Job) (o : Outcome) (pre : List Op) (f d : String)
    (h : noEnd pre = true) : noEnd (closeAdapter job o pre f d).1 = true := by
  unfold closeAdapter
  split
  · simp only [noEnd_append, h, noEnd_captured]
    rfl
  · simp only [noEnd_append, h, noEnd_captured]
    rfl

theorem noEnd_adapter (host : Host) (job : Job) (o : Outcome) :
    noEnd (adapter host job o).1 = true := by
  unfold adapter
  split
  · unfold executeK6Job Execute
    simp only
    split
    · split
      · rw [noEnd_append, noEnd_take _ _ (noEnd_executeBody _ _ _ _)]
        rfl
      · exact noEnd_executeBody _ _ _ _
    · exact noEnd_executeBody _ _ _ _
  · split
    · unfold executeShellJob
      split
      · rfl
      · exact noEnd_closeAdapter _ _ _ _ _ rfl
    · split
      · unfold executePythonJob
        split
        · rfl
        · simp only
          split
          · rfl
          · split
            · rfl
            · exact noEnd_closeAdapter _ _ _ _ _ rfl
      · split
        · unfold executeDockerJob
          split
          · rfl
          · simp only
            split
            · rfl
            · exact noEnd_closeAdapter _ _ _ _ _ rfl
        · rfl

/-! ### The outbox -/

theorem resultReports_append (xs ys : List Wire) :
    resultReports (xs ++ ys) = resultReports xs ++ resultReports ys := by
  simp [resultReports, List.filterMap_append]

theorem step_env_outbox (host : Host) (s : RunState) (e : Ev) :
    (step host s (.env e)).outbox = s.outbox ∧ (step host s (.env e)).launched = s.launched := by
  cases hc : s.crashed
  · rw [step_env_alive host s e hc]
    cases e <;> exact ⟨rfl, rfl⟩
  · rw [step_crashed host s _ hc]
    exact ⟨rfl, rfl⟩

theorem run_envs_outbox (host : Host) (s : RunState) (evs : List Ev) :
    (run host s (evs.map Act.env)).outbox = s.outbox
      ∧ (run host s (evs.map Act.env)).launched = s.launched := by
  induction evs generalizing s with
  | nil => exact ⟨rfl, rfl⟩
  | cons e rest ih =>
    rw [List.map_cons, run_cons]
    obtain ⟨h1, h2⟩ := ih (step host s (.env e))
    obtain ⟨h3, h4⟩ := step_env_outbox host s e
    exact ⟨h1.trans h3, h2.trans h4⟩

theorem step_life_reports (host : Host) (s : RunState) (o : Op) (h : o.endsJob = false) :
    resultReports (step host s (.life o)).outbox = resultReports s.outbox := by
  cases hc : s.crashed
  · rw [step_life_alive host s o hc]
    cases o <;> simp only [Op.apply, land]
    case reportJobStatus id st p l => simp [resultReports_append, resultReports]
    case sendCallback url => simp [resultReports_append, resultReports]
    case reportJobResult id => simp [Op.endsJob] at h
  · rw [step_crashed host s _ hc]

theorem run_weave_reports (host : Host) (ops : List Op) :
    ∀ (s : RunState) (sched : List (List Ev)), noEnd ops = true →
      resultReports (run host s (weave ops sched)).outbox = resultReports s.outbox := by
  induction ops with
  | nil => intro s sched _; rfl
  | cons o rest ih =>
    intro s sched h
    rw [noEnd_cons, Bool.and_eq_true] at h
    rw [weave_cons, run_append, run_cons, ih _ _ h.2, step_life_reports _ _ _ (by simpa using h.1),
      (run_envs_outbox host s _).1]

/-! ### Once the final block has run -/

theorem sameVerdict_refl (t : Task) : sameVerdict t t := ⟨rfl, rfl, rfl, rfl⟩

theorem sameVerdict_trans {t u v : Task} (h1 : sameVerdict t u) (h2 : sameVerdict u v) :
    sameVerdict t v :=
  ⟨h2.1.trans h1.1, h2.2.1.trans h1.2.1, h2.2.2.1.trans h1.2.2.1, h2.2.2.2.trans h1.2.2.2⟩

theorem step_env_verdict (host : Host) (s : RunState) (e : Ev)
    (h : s.task.Status.Status ≠ "running") : sameVerdict s.task (step host s (.env e)).task := by
  cases hc : s.crashed
  · rw [step_env_alive host s e hc]
    cases e with
    | elapse d => exact sameVerdict_refl _
    | stopRequest =>
      simp only [Ev.apply, stopTaskBody_of_not_running s.task s.clock h]
      exact sameVerdict_refl _
    | readerLog src line =>
      simp only [Ev.apply, land, sameVerdict, addLog_status]
      exact ⟨trivial, trivial, trivial, trivial⟩
    | readerProgress line =>
      obtain ⟨h1, h2, h3, h4, -⟩ := parseProgress_verdict s.task line
      exact ⟨h1, h2, h3, h4⟩
  · rw [step_crashed host s _ hc]
    exact sameVerdict_refl _

theorem run_envs_verdict (host : Host) (s : RunState) (evs : List Ev)
    (h : s.task.Status.Status ≠ "running") :
    sameVerdict s.task (run host s (evs.map Act.env)).task := by
  induction evs generalizing s with
  | nil => exact sameVerdict_refl _
  | cons e rest ih =>
    rw [List.map_cons, run_cons]
    have h1 := step_env_verdict host s e h
    have hne : (step host s (.env e)).task.Status.Status ≠ "running" := by
      rw [h1.1]; exact h
    exact sameVerdict_trans h1 (ih _ hne)

theorem finishJob_status_ne_running (task : Task) (now : Nat) (err : Option String) :
    (finishJob task now err).Status.Status ≠ "running" := by
  cases err <;> simp [finishJob]

theorem finishJob_endTime (task : Task) (now : Nat) (err : Option String) :
    (finishJob task now err).Status.EndTime = some now := by
  cases err <;> rfl

theorem finishJob_startTime (task : Task) (now : Nat) (err : Option String) :
    (finishJob task now err).Status.StartTime = task.Status.StartTime := by
  cases err <;> rfl

theorem finishJob_closed (task : Task) (now : Nat) (err : Option String) :
    (finishJob task now err).LogChanClosed = task.LogChanClosed := by
  cases err <;> rfl

/-- Shape of the steps of `executeJob`: the blocks of the adapter with the events
around them, then the final block, the result report and the closing of the
channel, each after the events scheduled before it. -/
theorem jobActs_split (host : Host) (job : Job) (o : Outcome) (sched : List (List Ev)) :
    ∃ (e1 e2 e3 : List Ev),
      jobActs host job o sched
        = (weave ([.reportJobStatus job.ID "running" 0 "任务开始执行"] ++ (adapter host job o).1) sched
            ++ e1.map Act.env ++ Act.life (.finish (adapter host job o).2) :: e2.map Act.env)
          ++ Act.life (.reportJobResult job.ID) :: (e3.map Act.env ++ [Act.life .closeLogChan]) := by
  refine ⟨(sched.drop ([Op.reportJobStatus job.ID "running" 0 "任务开始执行"]
      ++ (adapter host job o).1).length).headD [],
    (sched.drop ([Op.reportJobStatus job.ID "running" 0 "任务开始执行"]
      ++ (adapter host job o).1).length).tail.headD [],
    (sched.drop ([Op.reportJobStatus job.ID "running" 0 "任务开始执行"]
      ++ (adapter host job o).1).length).tail.tail.headD [], ?_⟩
  unfold jobActs lifecycle
  rw [weave_append]
  simp [weave_cons, weave]

theorem noEnd_head (host : Host) (job : Job) (o : Outcome) :
    noEnd ([Op.reportJobStatus job.ID "running" 0 "任务开始执行"] ++ (adapter host job o).1)
      = true := by
  rw [noEnd_append, noEnd_adapter]
  rfl

theorem isOpen_startState (host : Host) (job : Job) (now : Nat) :
    isOpen (startState host job now) := ⟨rfl, rfl⟩
theorem run_singleton (host : Host) (s : RunState) (a : Act) : run host s [a] = step host s a := rfl

/-- End of a run from a state in which the channel is open: the final block, the
report and the closing, with the events before each of them. -/
theorem run_closing (host : Host) (sP : RunState) (err : Option String) (id : String)
    (e1 e2 e3 : List Ev) (hopen : isOpen sP) :
    ∃ s1 : RunState, sP.clock ≤ s1.clock
      ∧ s1.task.Status.StartTime = sP.task.Status.StartTime
      ∧ sameVerdict (finishJob s1.task s1.clock err)
          (run host sP (e1.map Act.env ++ Act.life (.finish err) :: e2.map Act.env)).task
      ∧ resultReports
          (run host sP (e1.map Act.env ++ Act.life (.finish err) :: e2.map Act.env)).outbox
          = resultReports sP.outbox
      ∧ sameVerdict (finishJob s1.task s1.clock err)
          (run host (run host sP (e1.map Act.env ++ Act.life (.finish err) :: e2.map Act.env))
            (Act.life (.reportJobResult id) :: (e3.map Act.env ++ [Act.life .closeLogChan]))).task
      ∧ resultReports
          (run host (run host sP (e1.map Act.env ++ Act.life (.finish err) :: e2.map Act.env))
            (Act.life (.reportJobResult id) :: (e3.map Act.env ++ [Act.life .closeLogChan]))).outbox
          = resultReports sP.outbox
            ++ [reportJobResult id
                (run host sP (e1.map Act.env ++ Act.life (.finish err) :: e2.map Act.env)).task
                (run host sP (e1.map Act.env ++ Act.life (.finish err) :: e2.map Act.env)).clock]
      ∧ (run host (run host sP (e1.map Act.env ++ Act.life (.finish err) :: e2.map Act.env))
            (Act.life (.reportJobResult id) :: (e3.map Act.env ++ [Act.life .closeLogChan]))).crashed
          = false := by
  -- the events before the final block
  have h1_open := run_envs_open host sP e1 hopen
  have h1_out := (run_envs_outbox host sP e1).1
  have h1_clock := run_clock_le host sP (e1.map Act.env)
  have h1_start := run_startTime host sP (e1.map Act.env)
  rw [run_append, run_cons]
  generalize run host sP (e1.map Act.env) = s1 at h1_open h1_out h1_clock h1_start
  refine ⟨s1, h1_clock, h1_start, ?_⟩
  -- the final block
  have h2 : step host s1 (Act.life (.finish err))
      = { s1 with task := finishJob s1.task s1.clock err } := by
    rw [step_life_alive host s1 _ h1_open.1]; rfl
  rw [h2]
  have h2_ne : ({ s1 with task := finishJob s1.task s1.clock err } : RunState).task.Status.Status
      ≠ "running" := finishJob_status_ne_running _ _ _
  have h2_open : isOpen ({ s1 with task := finishJob s1.task s1.clock err } : RunState) :=
    ⟨h1_open.1, (finishJob_closed _ _ _).trans h1_open.2⟩
  -- the events before the report
  have h3_v := run_envs_verdict host _ e2 h2_ne
  have h3_open := run_envs_open host _ e2 h2_open
  have h3_out := (run_envs_outbox host ({ s1 with task := finishJob s1.task s1.clock err }) e2).1
  generalize run host { s1 with task := finishJob s1.task s1.clock err } (e2.map Act.env)
    = s3 at h3_v h3_open h3_out
  have h3_v2 : sameVerdict (finishJob s1.task s1.clock err) s3.task := h3_v
  have h3_rep : resultReports s3.outbox = resultReports sP.outbox := by
    rw [h3_out]; show resultReports s1.outbox = _; rw [h1_out]
  refine ⟨h3_v2, h3_rep, ?_⟩
  -- the report
  rw [run_cons, run_append, run_singleton]
  have h4 : step host s3 (Act.life (.reportJobResult id))
      = { s3 with outbox := s3.outbox ++ [.result (reportJobResult id s3.task s3.clock)] } := by
    rw [step_life_alive host s3 _ h3_open.1]; rfl
  rw [h4]
  have h4_ne : ({ s3 with outbox := s3.outbox
      ++ [Wire.result (reportJobResult id s3.task s3.clock)] } : RunState).task.Status.Status
      ≠ "running" := by
    show s3.task.Status.Status ≠ "running"
    rw [h3_v2.1]; exact finishJob_status_ne_running _ _ _
  have h4_open : isOpen ({ s3 with outbox := s3.outbox
      ++ [Wire.result (reportJobResult id s3.task s3.clock)] } : RunState) := h3_open
  -- the events before the closing
  have h5_v := run_envs_verdict host _ e3 h4_ne
  have h5_open := run_envs_open host _ e3 h4_open
  have h5_out := (run_envs_outbox host ({ s3 with outbox := s3.outbox
      ++ [Wire.result (reportJobResult id s3.task s3.clock)] }) e3).1
  generalize run host { s3 with outbox := s3.outbox
      ++ [Wire.result (reportJobResult id s3.task s3.clock)] } (e3.map Act.env)
    = s5 at h5_v h5_open h5_out
  have h6 : step host s5 (Act.life .closeLogChan)
      = { s5 with task := { s5.task with LogChanClosed := true } } := by
    rw [step_life_alive host s5 _ h5_open.1]; rfl
  rw [h6]
  refine ⟨?_, ?_, h5_open.1⟩
  · exact sameVerdict_trans h3_v2 h5_v
  · show resultReports s5.outbox = _
    rw [h5_out, resultReports_append, h3_rep]
    rfl

/-- Anatomy of a run of `executeJob`. The steps split at the result report. The
final block has run before, in a state `s1`, and has written the verdict that the
report finds and that the task still has at the end; no other result report is
sent; the process is alive at the end and the task is in the registry. -/
theorem executeJob_run (host : Host) (a : Agent) (job : Job) (now : Nat) (o : Outcome)
    (sched : List (List Ev)) :
    ∃ (before after : List Act) (s1 : RunState),
      jobActs host job o sched = before ++ Act.life (.reportJobResult job.ID) :: after
        ∧ now ≤ s1.clock
        ∧ s1.task.Status.StartTime = now
        ∧ sameVerdict (finishJob s1.task s1.clock (adapter host job o).2)
            (run host (startState host job now) before).task
        ∧ resultReports (run host (startState host job now) before).outbox = []
        ∧ sameVerdict (finishJob s1.task s1.clock (adapter host job o).2)
            (executeJob host a job now o sched).2.task
        ∧ resultReports (executeJob host a job now o sched).2.outbox
            = [reportJobResult job.ID (run host (startState host job now) before).task
                (run host (startState host job now) before).clock]
        ∧ (executeJob host a job now o sched).2.crashed = false
        ∧ (executeJob host a job now o sched).1.tasks.get job.ID
            = some (executeJob host a job now o sched).2.task := by
  obtain ⟨e1, e2, e3, hsplit⟩ := jobActs_split host job o sched
  have hP_open : isOpen (run host (startState host job now)
      (weave ([Op.reportJobStatus job.ID "running" 0 "任务开始执行"]
        ++ (adapter host job o).1) sched)) :=
    run_weave_open host _ _ sched (noEnd_head host job o) (isOpen_startState host job now)
  have hP_rep : resultReports (run host (startState host job now)
      (weave ([Op.reportJobStatus job.ID "running" 0 "任务开始执行"]
        ++ (adapter host job o).1) sched)).outbox = [] := by
    rw [run_weave_reports host _ _ sched (noEnd_head host job o)]
    rfl
  have hP_clock := run_clock_le host (startState host job now)
      (weave ([Op.reportJobStatus job.ID "running" 0 "任务开始执行"]
        ++ (adapter host job o).1) sched)
  have hP_start := run_startTime host (startState host job now)
      (weave ([Op.reportJobStatus job.ID "running" 0 "任务开始执行"]
        ++ (adapter host job o).1) sched)
  obtain ⟨s1, hc, hst, hv3, hr3, hv6, hr6, halive⟩ :=
    run_closing host _ (adapter host job o).2 job.ID e1 e2 e3 hP_open
  have hbefore : run host (startState host job now)
      (weave ([Op.reportJobStatus job.ID "running" 0 "任务开始执行"]
          ++ (adapter host job o).1) sched
        ++ e1.map Act.env ++ Act.life (.finish (adapter host job o).2) :: e2.map Act.env)
      = run host (run host (startState host job now)
          (weave ([Op.reportJobStatus job.ID "running" 0 "任务开始执行"]
            ++ (adapter host job o).1) sched))
          (e1.map Act.env ++ Act.life (.finish (adapter host job o).2) :: e2.map Act.env) := by
    rw [List.append_assoc, run_append]
  have hfinal : (executeJob host a job now o sched).2
      = run host (run host (run host (startState host job now)
          (weave ([Op.reportJobStatus job.ID "running" 0 "任务开始执行"]
            ++ (adapter host job o).1) sched))
          (e1.map Act.env ++ Act.life (.finish (adapter host job o).2) :: e2.map Act.env))
          (Act.life (.reportJobResult job.ID) :: (e3.map Act.env ++ [Act.life .closeLogChan])) := by
    show run host (startState host job now) (jobActs host job o sched) = _
    rw [hsplit, run_append, hbefore]
  refine ⟨_, _, s1, hsplit, le_trans hP_clock hc, ?_, ?_, ?_, ?_, ?_, ?_, ?_⟩
  · rw [hst, hP_start]; rfl
  · rw [hbefore]; exact hv3
  · rw [hbefore, hr3, hP_rep]
  · rw [hfinal]; exact hv6
  · rw [hfinal, hr6, hP_rep, hbefore]; rfl
  · rw [hfinal]; exact halive
  · simp only [executeJob]; exact GoMap.get_put_same _ _ _
/-! ## The lifecycle goroutine does not panic -/

theorem isFresh.matches {t : Task} (h : isFresh t) : endTimeMatchesStatus t := by
  obtain ⟨h1, h2⟩ := h
  simp [endTimeMatchesStatus, h1, h2, isTerminal]

theorem step_env_matches (host : Host) (s : RunState) (e : Ev)
    (h : endTimeMatchesStatus s.task) : endTimeMatchesStatus (step host s (.env e)).task := by
  cases hc : s.crashed
  · rw [step_env_alive host s e hc]
    cases e with
    | elapse d => exact h
    | stopRequest =>
      simp only [Ev.apply, stopTaskBody]
      split
      · simp [endTimeMatchesStatus, isTerminal]
      · exact h
    | readerLog src line =>
      simp only [Ev.apply, land, endTimeMatchesStatus, addLog_status]
      exact h
    | readerProgress line =>
      obtain ⟨h1, -, h3, -, -⟩ := parseProgress_verdict s.task line
      simp only [Ev.apply, endTimeMatchesStatus, h1, h3]
      exact h
  · rw [step_crashed host s _ hc]
    exact h

theorem step_life_matches (host : Host) (s : RunState) (o : Op)
    (ho : o.writesStatusOnly = false)
    (h : endTimeMatchesStatus s.task) : endTimeMatchesStatus (step host s (.life o)).task := by
  cases hc : s.crashed
  · rw [step_life_alive host s o hc]
    cases o <;> simp only [Op.apply, land, endTimeMatchesStatus, addLog_status,
      appendAndBroadcast_status, handleTaskError_status, runK6CommandTail_endTime,
      runK6CommandTail_terminal, recovered, finishJob]
    case setStatus st => simp [Op.writesStatusOnly] at ho
    case parseProgress l =>
      obtain ⟨h1, -, h3, -, -⟩ := parseProgress_verdict s.task l
      rw [h1, h3]; exact h
    case waitDone err => rfl
    case finish err => cases err <;> simp [isTerminal]
    case handleTaskError m e => simp [isTerminal]
    case recovered v => simp [isTerminal]
    all_goals exact h
  · rw [step_crashed host s _ hc]
    exact h

theorem step_env_fresh (host : Host) (s : RunState) (e : Ev)
    (h : isFresh s.task) : isFresh (step host s (.env e)).task := by
  cases hc : s.crashed
  · rw [step_env_alive host s e hc]
    cases e with
    | elapse d => exact h
    | stopRequest =>
      have : s.task.Status.Status ≠ "running" := by rw [h.1]; decide
      simp only [Ev.apply, stopTaskBody_of_not_running _ _ this]
      exact h
    | readerLog src line =>
      simp only [Ev.apply, land, isFresh, addLog_status]
      exact h
    | readerProgress line =>
      obtain ⟨h1, -, h3, -, -⟩ := parseProgress_verdict s.task line
      exact ⟨h1.trans h.1, h3.trans h.2⟩
  · rw [step_crashed host s _ hc]
    exact h

theorem step_neutral_fresh (host : Host) (s : RunState) (o : Op) (hn : o.neutral = true)
    (h : isFresh s.task) : isFresh (step host s (.life o)).task := by
  cases hc : s.crashed
  · rw [step_life_alive host s o hc]
    cases o <;> simp only [Op.apply, land, isFresh, addLog_status, appendAndBroadcast_status]
    case parseProgress l =>
      obtain ⟨h1, -, h3, -, -⟩ := parseProgress_verdict s.task l
      exact ⟨h1.trans h.1, h3.trans h.2⟩
    all_goals solve
      | exact h
      | simp [Op.neutral] at hn
  · rw [step_crashed host s _ hc]
    exact h

theorem run_take_settled (host : Host) (acts : List Act) :
    ∀ (s : RunState) (n : Nat), settledActs acts = true → endTimeMatchesStatus s.task →
      endTimeMatchesStatus (run host s (acts.take n)).task := by
  induction acts with
  | nil => intro s n _ h; simpa [run] using h
  | cons a rest ih =>
    intro s n hs h
    cases n with
    | zero => simpa [run] using h
    | succ n =>
      rw [List.take_succ_cons, run_cons]
      simp only [settledActs, List.all_cons, Bool.and_eq_true] at hs
      refine ih _ n (by simpa [settledActs] using hs.2) ?_
      cases a with
      | env e => exact step_env_matches host s e h
      | life o => exact step_life_matches host s o (by simpa using hs.1) h

theorem run_take_staged (host : Host) (acts : List Act) :
    ∀ (s : RunState) (n : Nat), stagedActs acts = true → isFresh s.task →
      endTimeMatchesStatus (run host s (acts.take n)).task := by
  induction acts with
  | nil => intro s n _ h; simpa [run] using h.matches
  | cons a rest ih =>
    intro s n hs h
    cases n with
    | zero => simpa [run] using h.matches
    | succ n =>
      rw [List.take_succ_cons, run_cons]
      cases a with
      | env e => exact ih _ n (by simpa [stagedActs] using hs) (step_env_fresh host s e h)
      | life o =>
        by_cases hset : o.writesStatusOnly = true
        · cases o <;> simp [Op.writesStatusOnly] at hset
          rename_i st
          simp only [stagedActs, Bool.and_eq_true, beq_iff_eq] at hs
          refine run_take_settled host rest _ n hs.2 ?_
          cases hc : s.crashed
          · obtain ⟨h1, h2⟩ := h
            rw [step_life_alive host s _ hc]
            simp [Op.apply, endTimeMatchesStatus, hs.1, h2, isTerminal]
          · rw [step_crashed host s _ hc]
            exact h.matches
        · have hset2 : o.writesStatusOnly = false := by simpa using hset
          by_cases hn : o.neutral = true
          · have hs2 : stagedActs rest = true := by
              cases o <;> simp_all [stagedActs, Op.neutral, Op.writesStatusOnly]
            exact ih _ n hs2 (step_neutral_fresh host s o hn h)
          · have hn2 : o.neutral = false := by simpa using hn
            have hs2 : settledActs rest = true := by
              cases o <;> simp_all [stagedActs, Op.neutral, Op.writesStatusOnly]
            exact run_take_settled host rest _ n hs2
              (step_life_matches host s o hset2 h.matches)

theorem noSet_append (xs ys : List Op) : noSet (xs ++ ys) = (noSet xs && noSet ys) := by
  simp [noSet, List.all_append]

theorem noSet_take (xs : List Op) (k : Nat) (h : noSet xs = true) : noSet (xs.take k) = true := by
  simp only [noSet, List.all_eq_true] at h ⊢
  intro o ho
  exact h o (List.mem_of_mem_take ho)

theorem stagedOps_of_noSet (xs : List Op) (h : noSet xs = true) : stagedOps xs = true := by
  induction xs with
  | nil => rfl
  | cons o rest ih =>
    simp only [noSet, List.all_cons, Bool.and_eq_true] at h
    have hr : noSet rest = true := by simpa [noSet] using h.2
    cases o <;> simp_all [stagedOps, Op.writesStatusOnly, Op.neutral, noSet]

theorem stagedOps_append (xs ys : List Op) (hx : stagedOps xs = true) (hy : noSet ys = true) :
    stagedOps (xs ++ ys) = true := by
  induction xs with
  | nil => simpa using stagedOps_of_noSet ys hy
  | cons o rest ih =>
    simp only [noSet, List.all_eq_true] at hy
    cases o <;> simp_all [stagedOps, Op.neutral, List.all_append, noSet]

theorem stagedOps_take (xs : List Op) (k : Nat) (hx : stagedOps xs = true) :
    stagedOps (xs.take k) = true := by
  induction xs generalizing k with
  | nil => simp [stagedOps]
  | cons o rest ih =>
    cases k with
    | zero => simp [stagedOps]
    | succ k =>
      rw [List.take_succ_cons]
      have ht : ∀ l : List Op, noSet l = true → noSet (l.take k) = true :=
        fun l hl => noSet_take l k hl
      cases o <;> simp_all [stagedOps, Op.neutral, noSet]
      all_goals first
        | exact ht _ hx.2
        | exact ht _ hx

theorem settledActs_append (xs ys : List Act) :
    settledActs (xs ++ ys) = (settledActs xs && settledActs ys) := by
  simp [settledActs, List.all_append]

theorem settledActs_envs (evs : List Ev) : settledActs (evs.map Act.env) = true := by
  simp [settledActs]

theorem settledActs_weave (ops : List Op) (sched : List (List Ev)) (h : noSet ops = true) :
    settledActs (weave ops sched) = true := by
  induction ops generalizing sched with
  | nil => simp [weave, settledActs]
  | cons o rest ih =>
    simp only [noSet, List.all_cons, Bool.and_eq_true] at h
    have hr : noSet rest = true := by simpa [noSet] using h.2
    rw [weave_cons, settledActs_append, settledActs_envs]
    simp only [Bool.true_and]
    have := ih sched.tail hr
    simp only [settledActs, List.all_cons, Bool.and_eq_true] at this ⊢
    exact ⟨by simpa using h.1, this⟩

theorem stagedActs_envs_append (evs : List Ev) (acts : List Act) :
    stagedActs (evs.map Act.env ++ acts) = stagedActs acts := by
  induction evs with
  | nil => rfl
  | cons e rest ih => simpa [stagedActs] using ih

theorem stagedActs_weave (ops : List Op) (sched : List (List Ev)) (after : List Ev)
    (h : stagedOps ops = true) :
    stagedActs (weave ops sched ++ after.map Act.env) = true := by
  induction ops generalizing sched with
  | nil =>
    have := stagedActs_envs_append after []
    simpa [weave, stagedActs] using this
  | cons o rest ih =>
    rw [weave_cons, List.append_assoc, stagedActs_envs_append, List.cons_append]
    have hsettled : noSet rest = true →
        settledActs (weave rest sched.tail ++ after.map Act.env) = true := by
      intro hr
      rw [settledActs_append, settledActs_weave rest _ hr, settledActs_envs]
      rfl
    have hih := ih sched.tail
    cases o <;> simp_all [stagedOps, stagedActs, Op.neutral, noSet]

theorem noSet_prepareScript (host : Host) (id : String) (req : ExecuteRequest) (o : Outcome) :
    noSet (prepareScript host id req o).1 = true := by
  unfold prepareScript
  simp only
  split
  · split <;> simp [noSet, Op.writesStatusOnly]
  · split
    · split
      · simp [noSet, Op.writesStatusOnly]
      · split <;> simp [noSet, Op.writesStatusOnly]
    · simp [noSet, Op.writesStatusOnly]

theorem noSet_readOutput (output : List (String × String)) : noSet (readOutput output) = true := by
  induction output with
  | nil => rfl
  | cons hd tl ih =>
    simp only [readOutput, List.map_cons, List.flatten_cons] at ih ⊢
    rw [noSet_append, ih]
    simp [noSet, Op.writesStatusOnly]

theorem noSet_runK6Command (o : Outcome) (argv : List String) :
    noSet (runK6Command o argv).1 = true := by
  unfold runK6Command
  simp only
  split
  · simp [noSet, Op.writesStatusOnly]
  · split
    · simp [noSet, Op.writesStatusOnly]
    · split
      · simp [noSet, Op.writesStatusOnly]
      · simp only [noSet_append, noSet_readOutput]
        simp [noSet, Op.writesStatusOnly]

theorem noSet_processResult (o : Outcome) (req : ExecuteRequest) :
    noSet (processResult o req) = true := by
  unfold processResult
  simp only [noSet_append]
  split <;> split <;> simp [noSet, Op.writesStatusOnly]

theorem noSet_captured (o : Outcome) : noSet (captured o) = true := by
  unfold captured
  simp only [noSet_append]
  split <;> split <;> simp [noSet, Op.writesStatusOnly]

theorem noSet_buildK6Command (host : Host) (req : ExecuteRequest) (scriptPath : String) :
    noSet (buildK6Command host req scriptPath).1 = true := rfl

theorem stagedOps_start (xs : List Op) (h : noSet xs = true) :
    stagedOps (.setStatus "running" :: xs) = true := by
  simpa [stagedOps, noSet] using h

theorem stagedOps_executeBody (host : Host) (id : String) (req : ExecuteRequest) (o : Outcome) :
    stagedOps (executeBody host id req o).1 = true := by
  unfold executeBody
  simp only
  split
  · refine stagedOps_start _ ?_
    simp only [List.append_eq, noSet_append, noSet_prepareScript]
    rfl
  · split
    · refine stagedOps_start _ ?_
      simp only [List.append_eq, noSet_append, noSet_prepareScript, noSet_runK6Command,
        noSet_buildK6Command]
      rfl
    · refine stagedOps_start _ ?_
      simp only [List.append_eq, noSet_append, noSet_prepareScript, noSet_runK6Command,
        noSet_buildK6Command, noSet_processResult]
      rfl

theorem stagedOps_closeAdapter (job : Job) (o : Outcome) (pre : List Op) (f d : String)
    (h : stagedOps pre = true) : stagedOps (closeAdapter job o pre f d).1 = true := by
  unfold closeAdapter
  split
  · rw [List.append_assoc]
    refine stagedOps_append _ _ h ?_
    rw [noSet_append, noSet_captured]
    simp [noSet, Op.writesStatusOnly]
  · rw [List.append_assoc]
    refine stagedOps_append _ _ h ?_
    rw [noSet_append, noSet_captured]
    simp [noSet, Op.writesStatusOnly]

theorem stagedOps_adapter (host : Host) (job : Job) (o : Outcome) :
    stagedOps (adapter host job o).1 = true := by
  unfold adapter
  split
  · unfold executeK6Job Execute
    simp only
    split
    · split
      · refine stagedOps_append _ _ (stagedOps_take _ _ (stagedOps_executeBody _ _ _ _)) ?_
        simp [noSet, Op.writesStatusOnly]
      · exact stagedOps_executeBody _ _ _ _
    · exact stagedOps_executeBody _ _ _ _
  · split
    · unfold executeShellJob
      split
      · rfl
      · exact stagedOps_closeAdapter _ _ _ _ _ (by simp [stagedOps, Op.writesStatusOnly])
    · split
      · unfold executePythonJob
        split
        · rfl
        · simp only
          split
          · simp [stagedOps, Op.writesStatusOnly]
          · split
            · simp [stagedOps, Op.writesStatusOnly]
            · exact stagedOps_closeAdapter _ _ _ _ _ (by simp [stagedOps, Op.writesStatusOnly])
      · split
        · unfold executeDockerJob
          split
          · rfl
          · simp only
            split
            · simp [stagedOps, Op.writesStatusOnly]
            · exact stagedOps_closeAdapter _ _ _ _ _ (by simp [stagedOps, Op.writesStatusOnly])
        · rfl

theorem stagedOps_lifecycle (host : Host) (job : Job) (o : Outcome) :
    stagedOps (lifecycle host job o) = true := by
  unfold lifecycle
  refine stagedOps_append _ _ ?_ (by simp [noSet, Op.writesStatusOnly])
  simpa [stagedOps, Op.neutral] using stagedOps_adapter host job o

theorem isFresh_startState (host : Host) (job : Job) (now : Nat) :
    isFresh (startState host job now).task := by
  simp [isFresh, startState, newTask]

theorem mem_resultReports (r : JobResultRequest) (outbox : List Wire) :
    r ∈ resultReports outbox ↔ Wire.result r ∈ outbox := by
  simp only [resultReports, List.mem_filterMap]
  constructor
  · rintro ⟨w, hw, hr⟩
    cases w <;> simp at hr
    subst hr
    exact hw
  · intro h
    exact ⟨_, h, rfl⟩

/-- Whatever the job, the results of its system calls and the schedule of the
environment, `executeJob` never ends with the status `stopped`: its final block
writes `failed` or `completed`. The end time it leaves is set and is not before
the start time. -/
theorem executeJob_never_stopped (host : Host) (a : Agent) (job : Job) (now : Nat)
    (o : Outcome) (sched : List (List Ev)) :
    ((executeJob host a job now o sched).2.task.Status.Status = "failed"
        ∨ (executeJob host a job now o sched).2.task.Status.Status = "completed")
      ∧ (executeJob host a job now o sched).2.task.Status.Status ≠ "stopped"
      ∧ ∃ t, (executeJob host a job now o sched).2.task.Status.EndTime = some t
          ∧ (executeJob host a job now o sched).2.task.Status.StartTime ≤ t := by
  obtain ⟨-, -, s1, -, hc, hst, -, -, hv, -, -, -⟩ := executeJob_run host a job now o sched
  obtain ⟨h1, -, h3, h4⟩ := hv
  rw [h1, h3, h4, finishJob_endTime, finishJob_startTime, hst]
  cases (adapter host job o).2 with
  | none => exact ⟨Or.inr rfl, by simp [finishJob], s1.clock, rfl, hc⟩
  | some e => exact ⟨Or.inl rfl, by simp [finishJob], s1.clock, rfl, hc⟩

/-- When the adapter returns no error, `executeJob` ends with the status
`completed`, in the registry and in the one result report. -/
theorem executeJob_completed_status (host : Host) (a : Agent) (job : Job) (now : Nat)
    (o : Outcome) (sched : List (List Ev)) (hok : (adapter host job o).2 = none) :
    (executeJob host a job now o sched).2.task.Status.Status = "completed"
      ∧ (executeJob host a job now o sched).1.tasks.get job.ID
          = some (executeJob host a job now o sched).2.task
      ∧ reportedStatuses (executeJob host a job now o sched).2.outbox = ["completed"] := by
  obtain ⟨before, -, s1, -, -, -, hv3, -, hv, hrep, -, hreg⟩ :=
    executeJob_run host a job now o sched
  rw [hok] at hv hv3
  refine ⟨hv.1, hreg, ?_⟩
  have : reportedStatuses (executeJob host a job now o sched).2.outbox
      = (resultReports (executeJob host a job now o sched).2.outbox).map fun r => r.Status := by
    generalize (executeJob host a job now o sched).2.outbox = out
    induction out with
    | nil => rfl
    | cons w rest ih =>
      cases w <;> simp_all [reportedStatuses, resultReports]
  rw [this, hrep]
  simp only [List.map_cons, List.map_nil, reportJobResult]
  rw [hv3.1]
  rfl

/-! ## Claims about the lifecycle -/

/-- C1 (the code departs from it): a shell job whose context is cancelled while
its process runs, by its timeout or by a stop request, is left `failed` by
`executeJob`, in the registry and in the report, not `stopped`; its end time is
set and not before its start time. A k6 job killed at its deadline ends `failed`
as well. -/
theorem executeJob_cancelled_ends_failed :
    (stateAfter demoHost sleepJob 0 killedOutcome deadlineSched 5).task.Ctx.Err
        (stateAfter demoHost sleepJob 0 killedOutcome deadlineSched 5).clock = true
      ∧ (stateAfter demoHost sleepJob 0 killedOutcome deadlineSched 5).task.Status.Status
          = "running"
      ∧ (executeJob demoHost freshAgent sleepJob 0 killedOutcome deadlineSched).2.task.Status.Status
          = "failed"
      ∧ ((executeJob demoHost freshAgent sleepJob 0 killedOutcome deadlineSched).1.tasks.get
          "j1").map (fun t => t.Status.Status) = some "failed"
      ∧ reportedStatuses
          (executeJob demoHost freshAgent sleepJob 0 killedOutcome deadlineSched).2.outbox
          = ["failed"]
      ∧ (executeJob demoHost freshAgent sleepJob 0 killedOutcome deadlineSched).2.task.Status.StartTime
          = 0
      ∧ (executeJob demoHost freshAgent sleepJob 0 killedOutcome deadlineSched).2.task.Status.EndTime
          = some 10000000
      ∧ (stateAfter demoHost sleepJob 0 killedOutcome stopSched 6).task.Ctx.cancelled = true
      ∧ (stateAfter demoHost sleepJob 0 killedOutcome stopSched 6).task.Status.Status = "stopped"
      ∧ (executeJob demoHost freshAgent sleepJob 0 killedOutcome stopSched).2.task.Status.Status
          = "failed"
      ∧ reportedStatuses
          (executeJob demoHost freshAgent sleepJob 0 killedOutcome stopSched).2.outbox
          = ["failed"]
      ∧ (stateAfter demoHost timedK6Job 0 k6KilledOutcome k6DeadlineSched 14).task.Ctx.Err
          (stateAfter demoHost timedK6Job 0 k6KilledOutcome k6DeadlineSched 14).clock = true
      ∧ (executeJob demoHost freshAgent timedK6Job 0 k6KilledOutcome
          k6DeadlineSched).2.task.Status.Status = "failed"
      ∧ reportedStatuses
          (executeJob demoHost freshAgent timedK6Job 0 k6KilledOutcome k6DeadlineSched).2.outbox
          = ["failed"] := by
  refine ⟨?_, ?_, ?_, ?_, ?_, ?_, ?_, ?_, ?_, ?_, ?_, ?_, ?_, ?_⟩ <;> rfl

/-- C2 (the code departs from it): a terminal status is overwritten by a later
block. After `runK6Command` has set `stopped`, `handleTaskError` sets `failed`;
after `StopTask` has set `stopped`, the final block of `executeJob` sets `failed`;
after the recovery of a panic has set `failed`, the final block sets `completed`. -/
theorem terminal_status_overwritten :
    ((stateAfter demoHost timedK6Job 0 k6KilledOutcome k6DeadlineSched 15).task.Status.Status
          = "stopped"
        ∧ (jobActs demoHost timedK6Job k6KilledOutcome k6DeadlineSched)[15]?
          = some (.life (.handleTaskError "执行失败" "signal: killed"))
        ∧ (stateAfter demoHost timedK6Job 0 k6KilledOutcome k6DeadlineSched 16).task.Status.Status
          = "failed")
      ∧ ((stateAfter demoHost sleepJob 0 killedOutcome stopSched 5).task.Status.Status = "running"
        ∧ (jobActs demoHost sleepJob killedOutcome stopSched)[5]? = some (.env .stopRequest)
        ∧ (stateAfter demoHost sleepJob 0 killedOutcome stopSched 6).task.Status.Status = "stopped"
        ∧ (stateAfter demoHost sleepJob 0 killedOutcome stopSched 7).task.Status.Status = "stopped"
        ∧ (jobActs demoHost sleepJob killedOutcome stopSched)[7]?
          = some (.life (.finish (some "signal: killed")))
        ∧ (stateAfter demoHost sleepJob 0 killedOutcome stopSched 8).task.Status.Status = "failed")
      ∧ ((stateAfter demoHost inlineK6Job 0 faultOutcome [] 5).task.Status.Status = "failed"
        ∧ (jobActs demoHost inlineK6Job faultOutcome [])[5]? = some (.life (.finish none))
        ∧ (stateAfter demoHost inlineK6Job 0 faultOutcome [] 6).task.Status.Status
          = "completed") := by
  refine ⟨⟨?_, ?_, ?_⟩, ⟨?_, ?_, ?_, ?_, ?_, ?_⟩, ⟨?_, ?_, ?_⟩⟩ <;> rfl

/-- C3 (the code departs from it): when a block of `Execute` panics in a k6 job the
panic is recovered and the task is set to `failed` with the panic value in its
error, but `Execute` then returns `nil`, and `executeJob` ends with the status
`completed` and progress 1, the error text still in place. -/
theorem Execute_panic_ends_completed :
    (adapter demoHost inlineK6Job faultOutcome).1.getLast? = some (.recovered "boom")
      ∧ (adapter demoHost inlineK6Job faultOutcome).2 = none
      ∧ (stateAfter demoHost inlineK6Job 0 faultOutcome [] 5).task.Status.Status = "failed"
      ∧ (stateAfter demoHost inlineK6Job 0 faultOutcome [] 5).task.Status.Error
          = "执行异常: boom"
      ∧ (executeJob demoHost freshAgent inlineK6Job 0 faultOutcome []).2.task.Status.Status
          = "completed"
      ∧ (executeJob demoHost freshAgent inlineK6Job 0 faultOutcome []).2.task.Status.Progress = 1
      ∧ (executeJob demoHost freshAgent inlineK6Job 0 faultOutcome []).2.task.Status.Error
          = "执行异常: boom"
      ∧ ((executeJob demoHost freshAgent inlineK6Job 0 faultOutcome []).1.tasks.get
          "j2").map (fun t => t.Status.Status) = some "completed"
      ∧ reportedStatuses (executeJob demoHost freshAgent inlineK6Job 0 faultOutcome []).2.outbox
          = ["completed"] := by
  refine ⟨?_, ?_, ?_, ?_, ?_, ?_, ?_, ?_, ?_⟩ <;> rfl

/-- C4 (the code departs from it): a k6 job whose process exits with status 0 and
whose context is never cancelled. The final block of `executeJob` writes the
status `completed` and the progress 1, but a `readOutput` goroutine, which nothing
waits for, then handles a line with `running` and a slash and writes the progress
50: `executeJob` ends with the status `completed` and the progress 50. -/
theorem executeJob_late_reader_progress :
    (adapter demoHost inlineK6Job {}).2 = none
      ∧ (jobActs demoHost inlineK6Job {} lateReaderSched)[12]? = some (.life (.finish none))
      ∧ (stateAfter demoHost inlineK6Job 0 {} lateReaderSched 13).task.Status.Status = "completed"
      ∧ (stateAfter demoHost inlineK6Job 0 {} lateReaderSched 13).task.Status.Progress = 1
      ∧ (jobActs demoHost inlineK6Job {} lateReaderSched)[14]?
          = some (.env (.readerProgress "running (0m30.0s/0m30s)"))
      ∧ (executeJob demoHost freshAgent inlineK6Job 0 {} lateReaderSched).2.task.Status.Status
          = "completed"
      ∧ (executeJob demoHost freshAgent inlineK6Job 0 {} lateReaderSched).2.task.Status.Progress
          = 50
      ∧ (executeJob demoHost freshAgent inlineK6Job 0 {} lateReaderSched).2.task.Ctx.Err
          (executeJob demoHost freshAgent inlineK6Job 0 {} lateReaderSched).2.clock = false
      ∧ ((executeJob demoHost freshAgent inlineK6Job 0 {} lateReaderSched).1.tasks.get
          "j2").map (fun t => t.Status.Progress) = some 50
      ∧ (executeJob demoHost freshAgent inlineK6Job 0 {} lateReaderSched).2.task.Status.Progress
          ≠ 1 := by
  refine ⟨rfl, rfl, rfl, rfl, rfl, rfl, rfl, rfl, rfl, ?_⟩
  have h : (executeJob demoHost freshAgent inlineK6Job 0 {} lateReaderSched).2.task.Status.Progress
      = 50 := rfl
  rw [h]
  norm_num

/-- C5: when the adapter returns an error, `executeJob` ends with the status
`failed` and the text of that error in the error field; the text is not empty as
long as the errors of the system calls that the adapters pass on unchanged have a
non-empty text. -/
theorem executeJob_failed (host : Host) (a : Agent) (job : Job) (now : Nat) (o : Outcome)
    (sched : List (List Ev)) (e : String) (herr : (adapter host job o).2 = some e)
    (hraw : rawErrorsNonempty o) :
    (executeJob host a job now o sched).2.task.Status.Status = "failed"
      ∧ (executeJob host a job now o sched).2.task.Status.Error = e
      ∧ (executeJob host a job now o sched).2.task.Status.Error ≠ ""
      ∧ (executeJob host a job now o sched).1.tasks.get job.ID
          = some (executeJob host a job now o sched).2.task
      ∧ ∃ r, Wire.result r ∈ (executeJob host a job now o sched).2.outbox
          ∧ r.Status = "failed" ∧ r.Error = e := by
  obtain ⟨before, -, s1, -, -, -, hv3, -, hv, hrep, -, hreg⟩ :=
    executeJob_run host a job now o sched
  rw [herr] at hv hv3
  have hne : e ≠ "" := adapter_error_nonempty host job o e hraw herr
  refine ⟨hv.1, hv.2.1, ?_, hreg,
    reportJobResult job.ID (run host (startState host job now) before).task
      (run host (startState host job now) before).clock, ?_, ?_, ?_⟩
  · rw [hv.2.1]; exact hne
  · rw [← mem_resultReports, hrep]
    exact List.mem_singleton_self _
  · exact hv3.1
  · exact hv3.2.1

/-- Witness for C5: a shell command that exits with status 1, no cancellation. -/
theorem executeJob_failed_witness :
    (adapter demoHost echoJob exitOneOutcome).2 = some "exit status 1"
      ∧ rawErrorsNonempty exitOneOutcome
      ∧ (executeJob demoHost freshAgent echoJob 0 exitOneOutcome []).2.task.Ctx.Err
          (executeJob demoHost freshAgent echoJob 0 exitOneOutcome []).2.clock = false
      ∧ ((executeJob demoHost freshAgent echoJob 0 exitOneOutcome []).2.task.Status.Status
          = "failed"
        ∧ (executeJob demoHost freshAgent echoJob 0 exitOneOutcome []).2.task.Status.Error
          = "exit status 1"
        ∧ (executeJob demoHost freshAgent echoJob 0 exitOneOutcome []).2.task.Status.Error ≠ ""
        ∧ (executeJob demoHost freshAgent echoJob 0 exitOneOutcome []).1.tasks.get echoJob.ID
          = some (executeJob demoHost freshAgent echoJob 0 exitOneOutcome []).2.task
        ∧ ∃ r, Wire.result r ∈ (executeJob demoHost freshAgent echoJob 0 exitOneOutcome []).2.outbox
          ∧ r.Status = "failed" ∧ r.Error = "exit status 1") :=
  ⟨rfl, by simp [rawErrorsNonempty, exitOneOutcome], rfl,
   executeJob_failed demoHost freshAgent echoJob 0 exitOneOutcome [] "exit status 1" rfl
     (by simp [rawErrorsNonempty, exitOneOutcome])⟩

/-- C6: in every state that the task of a job goes through, at the boundaries of the
blocks of `executeJob` and its adapter and of the stop requests served meanwhile and
afterwards, the end time is set if and only if the status is `completed`, `failed`
or `stopped`. -/
theorem endTime_iff_terminal (host : Host) (job : Job) (now : Nat) (o : Outcome)
    (sched : List (List Ev)) (after : List Ev) (n : Nat) :
    (run host (startState host job now)
        ((jobActs host job o sched ++ after.map Act.env).take n)).task.Status.EndTime.isSome = true
      ↔ ((run host (startState host job now)
          ((jobActs host job o sched ++ after.map Act.env).take n)).task.Status.Status = "completed"
        ∨ (run host (startState host job now)
          ((jobActs host job o sched ++ after.map Act.env).take n)).task.Status.Status = "failed"
        ∨ (run host (startState host job now)
          ((jobActs host job o sched ++ after.map Act.env).take n)).task.Status.Status
            = "stopped") := by
  have h := run_take_staged host _ (startState host job now) n
    (stagedActs_weave (lifecycle host job o) sched after (stagedOps_lifecycle host job o))
    (isFresh_startState host job now)
  unfold endTimeMatchesStatus at h
  unfold jobActs
  rw [h]
  simp [isTerminal, or_assoc]

/-! ## Task ids -/

theorem digitChar_value : ∀ k, k < 10 → (Nat.digitChar k).toNat - 48 = k := by
  decide

theorem readDecimal_toDigitsCore (fuel : Nat) :
    ∀ (n : Nat) (ds : List Char), n < fuel →
      readDecimal 0 (Nat.toDigitsCore 10 fuel n ds) = readDecimal n ds := by
  induction fuel with
  | zero => intro n ds h; omega
  | succ fuel ih =>
    intro n ds h
    simp only [Nat.toDigitsCore]
    split
    · rename_i h0
      have hn : n < 10 := by omega
      simp only [readDecimal, List.foldl_cons, Nat.zero_mul, Nat.zero_add]
      rw [Nat.mod_eq_of_lt hn, digitChar_value n hn]
    · rename_i h0
      have hlt : n / 10 < fuel := by omega
      rw [ih (n / 10) _ hlt]
      simp only [readDecimal, List.foldl_cons]
      rw [digitChar_value (n % 10) (Nat.mod_lt _ (by decide))]
      congr 1
      omega

theorem readDecimal_repr (n : Nat) : readDecimal 0 (toString n).data = n := by
  show readDecimal 0 (Nat.repr n).data = n
  simp only [Nat.repr, List.asString, Nat.toDigits]
  exact readDecimal_toDigitsCore (n + 1) n [] (Nat.lt_succ_self n)

theorem generateTaskID_data (n : Nat) :
    (generateTaskID n).data = "task-".data ++ (toString n).data := by
  simp [generateTaskID]

theorem generateTaskID_inj (m n : Nat) (h : generateTaskID m = generateTaskID n) : m = n := by
  have hd := congrArg String.data h
  rw [generateTaskID_data, generateTaskID_data] at hd
  have hs := List.append_cancel_left hd
  have := congrArg (readDecimal 0) hs
  rwa [readDecimal_repr, readDecimal_repr] at this

/-- C18: two clock readings with different nanosecond timestamps give different
task ids; every id is non-empty and starts with `task-`. -/
theorem generateTaskID_distinct (m n : Nat) (h : m ≠ n) :
    generateTaskID m ≠ generateTaskID n
      ∧ generateTaskID m ≠ ""
      ∧ "task-".toList <+: (generateTaskID m).toList := by
  refine ⟨fun heq => h (generateTaskID_inj m n heq), ?_, ?_⟩
  · exact append_ne_empty _ _ (by decide)
  · exact ⟨(toString m).data, (generateTaskID_data m).symm⟩

/-- Witness for C18: two readings one millisecond apart. -/
theorem generateTaskID_distinct_witness :
    generateTaskID 1700000000000000000 ≠ generateTaskID 1700000000001000000
      ∧ generateTaskID 1700000000000000000 ≠ ""
      ∧ "task-".toList <+: (generateTaskID 1700000000000000000).toList :=
  generateTaskID_distinct 1700000000000000000 1700000000001000000 (by decide)

/-! ## Log lines, the info handler and the result report -/

/-- On an open channel a line logged by an adapter is appended at the end of the
history and enters the queue exactly when the queue holds fewer than 100 lines;
a full queue is left as it is and nothing panics. This holds for `addLog` of the
executor and for the append with `broadcastLog` of the other adapters. -/
theorem addLog_open (host : Host) (task : Task) (now : Nat) (message line : String)
    (hopen : task.LogChanClosed = false) :
    (addLog host task now message).panicked = false
      ∧ (addLog host task now message).task.Status.Logs
        = task.Status.Logs ++ ["[" ++ host.formatTime now ++ "] " ++ message]
      ∧ (addLog host task now message).task.LogChan
        = (if task.LogChan.length < 100
            then task.LogChan ++ ["[" ++ host.formatTime now ++ "] " ++ message]
            else task.LogChan)
      ∧ (appendAndBroadcast task line).panicked = false
      ∧ (appendAndBroadcast task line).task.Status.Logs = task.Status.Logs ++ [line]
      ∧ (appendAndBroadcast task line).task.LogChan
        = (if task.LogChan.length < 100 then task.LogChan ++ [line] else task.LogChan) := by
  refine ⟨?_, ?_, ?_, ?_, ?_, ?_⟩
  · rw [addLog_panicked, hopen]
  · rw [addLog_status]
  · exact trySend_queue _ _ hopen
  · rw [appendAndBroadcast_panicked, hopen]
  · rw [appendAndBroadcast_status]
  · exact trySend_queue _ _ hopen

/-- On a closed channel a line logged by an adapter is appended to the history and
the send then panics; the queue is left as it is. -/
theorem addLog_closed_panics (host : Host) (task : Task) (now : Nat) (message : String)
    (hclosed : task.LogChanClosed = true) :
    (addLog host task now message).panicked = true
      ∧ (addLog host task now message).task.Status.Logs
        = task.Status.Logs ++ ["[" ++ host.formatTime now ++ "] " ++ message]
      ∧ (addLog host task now message).task.LogChan = task.LogChan := by
  refine ⟨?_, ?_, ?_⟩
  · rw [addLog_panicked, hclosed]
  · rw [addLog_status]
  · exact trySend_queue_closed _ _ hclosed

/-- C12 (the code departs from it): a line that an adapter logs after `executeJob`
has closed the channel of the task. The readers of the k6 output are not waited
for, so one of them can log then: the queue holds 8 lines, fewer than 100, the
line is appended to the history, but it does not enter the queue, the send panics
in the goroutine of the reader and the agent process dies. -/
theorem readOutput_logs_after_close :
    endedRun.task.LogChanClosed = true
      ∧ endedRun.crashed = false
      ∧ endedRun.task.LogChan.length = 8
      ∧ (addLog demoHost endedRun.task endedRun.clock "[stdout] done").task.Status.Logs
          = endedRun.task.Status.Logs ++ ["[T] [stdout] done"]
      ∧ (addLog demoHost endedRun.task endedRun.clock "[stdout] done").task.LogChan
          = endedRun.task.LogChan
      ∧ (addLog demoHost endedRun.task endedRun.clock "[stdout] done").panicked = true
      ∧ (run demoHost endedRun [.env (.readerLog "stdout" "done")]).crashed = true := by
  refine ⟨rfl, rfl, rfl, rfl, rfl, rfl, rfl⟩

theorem GoMap.mem_entriesFrom {α : Type} (m : GoMap α) :
    ∀ (seen : List String) (k : String) (v : α),
      (k, v) ∈ GoMap.entriesFrom seen m ↔ k ∉ seen ∧ m.get k = some v := by
  induction m with
  | nil => intro seen k v; simp [GoMap.entriesFrom, GoMap.get]
  | cons hd tl ih =>
    obtain ⟨k0, v0⟩ := hd
    intro seen k v
    by_cases hs : k0 ∈ seen
    · simp only [GoMap.entriesFrom, hs, if_true, ih, GoMap.get]
      constructor
      · rintro ⟨h1, h2⟩
        have : k0 ≠ k := fun h => h1 (h ▸ hs)
        exact ⟨h1, by simp [this, h2]⟩
      · rintro ⟨h1, h2⟩
        have : k0 ≠ k := fun h => h1 (h ▸ hs)
        exact ⟨h1, by simpa [this] using h2⟩
    · simp only [GoMap.entriesFrom, hs, if_false, List.mem_cons, ih, GoMap.get, Prod.mk.injEq]
      by_cases hk : k0 = k
      · subst hk
        simp [hs, eq_comm]
      · have hk2 : ¬ k = k0 := fun h => hk h.symm
        simp [hk, hk2]

theorem GoMap.mem_entries {α : Type} (m : GoMap α) (k : String) (v : α) :
    (k, v) ∈ m.entries ↔ m.get k = some v := by
  simp [GoMap.entries, GoMap.mem_entriesFrom]

theorem GoMap.entriesFrom_keys {α : Type} (m : GoMap α) :
    ∀ (seen : List String), ((GoMap.entriesFrom seen m).map Prod.fst).Nodup
      ∧ ∀ k ∈ (GoMap.entriesFrom seen m).map Prod.fst, k ∉ seen := by
  induction m with
  | nil => intro seen; simp [GoMap.entriesFrom]
  | cons hd tl ih =>
    obtain ⟨k0, v0⟩ := hd
    intro seen
    by_cases hs : k0 ∈ seen
    · simpa [GoMap.entriesFrom, hs] using ih seen
    · obtain ⟨h1, h2⟩ := ih (k0 :: seen)
      simp only [GoMap.entriesFrom, hs, if_false, List.map_cons, List.nodup_cons, List.mem_cons]
      refine ⟨⟨fun hmem => ?_, h1⟩, ?_⟩
      · exact (h2 k0 hmem) (List.mem_cons_self _ _)
      · intro k hk
        rcases hk with rfl | hk
        · exact hs
        · exact fun hin => (h2 k hk) (List.mem_cons_of_mem _ hin)

theorem GoMap.entries_keys_nodup {α : Type} (m : GoMap α) :
    (m.entries.map Prod.fst).Nodup :=
  (GoMap.entriesFrom_keys m []).1

theorem GoMap.mem_keys {α : Type} (m : GoMap α) (k : String) :
    k ∈ m.map Prod.fst ↔ ∃ v, m.get k = some v := by
  induction m with
  | nil => simp [GoMap.get]
  | cons hd tl ih =>
    obtain ⟨k0, v0⟩ := hd
    by_cases hk : k0 = k
    · subst hk
      simp [GoMap.get]
    · have hk2 : ¬ k = k0 := fun h => hk h.symm
      simp [GoMap.get, hk, hk2, ih]

theorem GoMap.mem_entries_keys (m : GoMap Task) (k : String) :
    k ∈ m.entries.map Prod.fst ↔ ∃ v, m.get k = some v := by
  constructor
  · intro h
    obtain ⟨kv, hkv, hk⟩ := List.mem_map.1 h
    obtain ⟨k0, v⟩ := kv
    simp only at hk
    subst hk
    exact ⟨v, (GoMap.mem_entries m k0 v).1 hkv⟩
  · rintro ⟨v, hv⟩
    exact List.mem_map.2 ⟨(k, v), (GoMap.mem_entries m k v).2 hv, rfl⟩

theorem GoMap.entries_keys_toFinset (m : GoMap Task) :
    (m.entries.map Prod.fst).toFinset = (m.map Prod.fst).toFinset := by
  ext k
  rw [List.mem_toFinset, List.mem_toFinset, GoMap.mem_entries_keys, GoMap.mem_keys]

theorem GoMap.entries_length (m : GoMap Task) :
    m.entries.length = (m.map Prod.fst).toFinset.card := by
  rw [← GoMap.entries_keys_toFinset, List.toFinset_card_of_nodup (GoMap.entries_keys_nodup m),
    List.length_map]

theorem GoMap.running_length (m : GoMap Task) :
    (m.entries.filter fun kv => kv.2.Status.Status = "running").length
      = ((m.map Prod.fst).toFinset.filter fun k => runningAt m k = true).card := by
  have hnodup : (((m.entries.filter fun kv => kv.2.Status.Status = "running")).map Prod.fst).Nodup :=
    List.Nodup.sublist ((List.filter_sublist _).map _) (GoMap.entries_keys_nodup m)
  have hset : (((m.entries.filter fun kv => kv.2.Status.Status = "running")).map Prod.fst).toFinset
      = (m.map Prod.fst).toFinset.filter fun k => runningAt m k = true := by
    ext k
    rw [List.mem_toFinset, Finset.mem_filter, List.mem_toFinset]
    constructor
    · intro h
      obtain ⟨kv, hkv, hk⟩ := List.mem_map.1 h
      obtain ⟨k0, v⟩ := kv
      simp only at hk
      subst hk
      obtain ⟨hmem, hr⟩ := List.mem_filter.1 hkv
      have hget := (GoMap.mem_entries m k0 v).1 hmem
      refine ⟨(GoMap.mem_keys m k0).2 ⟨v, hget⟩, ?_⟩
      simpa [runningAt, hget] using hr
    · rintro ⟨hk, hr⟩
      obtain ⟨v, hv⟩ := (GoMap.mem_keys m k).1 hk
      refine List.mem_map.2 ⟨(k, v), List.mem_filter.2 ⟨(GoMap.mem_entries m k v).2 hv, ?_⟩, rfl⟩
      simpa [runningAt, hv] using hr
  rw [← hset, List.toFinset_card_of_nodup hnodup, List.length_map]

/-- C17: `GetInfo` answers 200 with status `online`; `totalTasks` is the number of
ids that the registry holds and `runningTasks` the number of those ids whose task,
as lookup finds it, has the status `running`, so it is at most `totalTasks`; both
are 0 for a fresh agent, and they are 2 and 1 for a registry with a running and a
completed task; the agent is left as it was. -/
theorem GetInfo_counts (a : Agent) (now : Nat) :
    (GetInfo a now).2.code = 200
      ∧ (GetInfo a now).2.status = "online"
      ∧ (GetInfo a now).2.totalTasks = (a.tasks.map Prod.fst).toFinset.card
      ∧ (GetInfo a now).2.runningTasks
          = ((a.tasks.map Prod.fst).toFinset.filter fun k => runningAt a.tasks k = true).card
      ∧ (GetInfo a now).2.runningTasks ≤ (GetInfo a now).2.totalTasks
      ∧ (GetInfo a now).1 = a
      ∧ (GetInfo freshAgent now).2.totalTasks = 0
      ∧ (GetInfo freshAgent now).2.runningTasks = 0
      ∧ (GetInfo busyAgent now).2.totalTasks = 2
      ∧ (GetInfo busyAgent now).2.runningTasks = 1 := by
  refine ⟨rfl, rfl, ?_, ?_, ?_, rfl, rfl, rfl, rfl, rfl⟩
  · exact GoMap.entries_length a.tasks
  · exact GoMap.running_length a.tasks
  · exact List.length_filter_le _ _

/-- C20: the report built by `reportJobResult` has exit code 0 whatever the task,
the status and the error of the task, the history lines joined by a newline as
log, and as execution time 0 when the end time is unset and otherwise the end
time minus the start time in whole milliseconds (rounded toward zero), for a
difference that fits the 64-bit duration. -/
theorem reportJobResult_fields (jobID : String) (task : Task) (now : Nat) :
    (reportJobResult jobID task now).ExitCode = 0
      ∧ (reportJobResult jobID task now).JobID = jobID
      ∧ (reportJobResult jobID task now).Status = task.Status.Status
      ∧ (reportJobResult jobID task now).Error = task.Status.Error
      ∧ (reportJobResult jobID task now).Log = String.intercalate "\n" task.Status.Logs
      ∧ (task.Status.EndTime = none → (reportJobResult jobID task now).ExecutionTime = 0)
      ∧ (∀ e, task.Status.EndTime = some e →
          -9223372036854775808 ≤ (e : Int) - (task.Status.StartTime : Int) →
          (e : Int) - (task.Status.StartTime : Int) ≤ 9223372036854775807 →
          (reportJobResult jobID task now).ExecutionTime
            = Int.tdiv ((e : Int) - (task.Status.StartTime : Int)) 1000000) := by
  refine ⟨rfl, rfl, rfl, rfl, rfl, ?_, ?_⟩
  · intro h
    simp [reportJobResult, h]
  · intro e h hlo hhi
    simp only [reportJobResult, h, milliseconds, timeSub]
    rw [if_neg (by omega), if_neg (by omega)]

/-! ## Control loops and subscribers -/

/-- C16: a poll tick starts `executeJob` for at most one job, and only when the
agent is registered and the answer carries a job; an unregistered agent sends no
request; on a null job the agent is unchanged, no job is started and no error is
returned. The tick itself never touches the registry. -/
theorem pollJob_effects (a : Agent) (get : PollResult) :
    (pollJob a get).spawned.length ≤ 1
      ∧ (pollJob a get).agent = a
      ∧ (∀ job, job ∈ (pollJob a get).spawned →
          a.registered = true
            ∧ ∃ status body, (status = 200 ∨ status = 201)
                ∧ get = .answered status body (.ok (some job)))
      ∧ (a.registered = false →
          (pollJob a get).requests = [] ∧ (pollJob a get).spawned = []
            ∧ (pollJob a get).error = none)
      ∧ (∀ status body, (status = 200 ∨ status = 201) → get = .answered status body (.ok none) →
          (pollJob a get).agent.tasks = a.tasks ∧ (pollJob a get).spawned = []
            ∧ (pollJob a get).error = none) := by
  refine ⟨?_, ?_, ?_, ?_, ?_⟩
  · unfold pollJob
    split
    · simp
    · split
      · simp
      · simp only
        split
        · simp
        · split <;> simp
  · unfold pollJob
    split
    · rfl
    · split
      · rfl
      · simp only
        split
        · rfl
        · split <;> rfl
  · intro job hjob
    unfold pollJob at hjob
    split at hjob
    · simp at hjob
    · rename_i hreg
      have hreg2 : a.registered = true := by simpa using hreg
      split at hjob
      · simp at hjob
      · rename_i status body decoded
        simp only at hjob
        split at hjob
        · simp at hjob
        · rename_i hst
          have hst2 : status = 200 ∨ status = 201 := by omega
          split at hjob
          · simp at hjob
          · simp only [List.mem_singleton] at hjob
            subst hjob
            exact ⟨hreg2, status, body, hst2, rfl⟩
          · simp at hjob
  · intro hreg
    simp [pollJob, hreg]
  · intro status body hst hget
    subst hget
    unfold pollJob
    split
    · exact ⟨rfl, rfl, rfl⟩
    · have : ¬ (status ≠ 200 ∧ status ≠ 201) := by omega
      simp [this]

/-- Witness for C16: a registered agent is handed a job, then a null job; an
unregistered agent polls. -/
theorem pollJob_effects_witness :
    (echoJob ∈ (pollJob registeredAgent (.answered 200 "job" (.ok (some echoJob)))).spawned →
        registeredAgent.registered = true
          ∧ ∃ status body, (status = 200 ∨ status = 201)
              ∧ PollResult.answered 200 "job" (.ok (some echoJob))
                = .answered status body (.ok (some echoJob)))
      ∧ ((pollJob freshAgent (.answered 200 "job" (.ok (some echoJob)))).requests = []
          ∧ (pollJob freshAgent (.answered 200 "job" (.ok (some echoJob)))).spawned = []
          ∧ (pollJob freshAgent (.answered 200 "job" (.ok (some echoJob)))).error = none)
      ∧ ((pollJob registeredAgent (.answered 200 "null" (.ok none))).agent.tasks
            = registeredAgent.tasks
          ∧ (pollJob registeredAgent (.answered 200 "null" (.ok none))).spawned = []
          ∧ (pollJob registeredAgent (.answered 200 "null" (.ok none))).error = none) :=
  ⟨(pollJob_effects registeredAgent (.answered 200 "job" (.ok (some echoJob)))).2.2.1 echoJob,
   (pollJob_effects freshAgent (.answered 200 "job" (.ok (some echoJob)))).2.2.2.1 rfl,
   (pollJob_effects registeredAgent (.answered 200 "null" (.ok none))).2.2.2.2 200 "null"
     (Or.inl rfl) rfl⟩

/-- C15 as stated fails: with an answer 200, `register` still returns an error and
leaves the flag unset when the body cannot be read; and when the body carries no
string `id` (no `id` at all, or a number) it sets the flag but keeps the local id. -/
theorem register_success_without_id :
    ((register freshAgent brokenReply).2 = some "读取注册响应失败: unexpected EOF"
        ∧ (register freshAgent brokenReply).1.registered = false)
      ∧ ((register freshAgent plainReply).2 = none
        ∧ (register freshAgent plainReply).1.registered = true
        ∧ (register freshAgent plainReply).1.info.AgentID = "agent-host-0")
      ∧ ((register freshAgent numericReply).2 = none
        ∧ (register freshAgent numericReply).1.registered = true
        ∧ (register freshAgent numericReply).1.info.AgentID = "agent-host-0"
        ∧ (register freshAgent numericReply).1.info.AgentID ≠ "42") := by
  refine ⟨⟨rfl, rfl⟩, ⟨rfl, rfl, rfl⟩, ⟨rfl, rfl, rfl, by decide⟩⟩

/-- C15 amended: when the server answers 200 or 201 and the body is read,
`register` returns no error, sets the registered flag, takes as agent id the `id`
of the body when the body is a JSON object whose `id` is a string and keeps its
id otherwise, and `Start` launches both loops. In every other case (transport
error, other status code, unreadable body) `register` returns an error, the agent,
its flag and id included, is unchanged, and `Start` returns that error and
launches no loop. -/
theorem register_outcome (a : Agent) (post : HttpResult) :
    (registrationSucceeds post = true →
        (register a post).2 = none
          ∧ (register a post).1.registered = true
          ∧ (register a post).1.info.AgentID = (assignedID (match post with
              | .answered _ _ json => json
              | .failed _ => none)).getD a.info.AgentID
          ∧ (register a post).1.tasks = a.tasks
          ∧ Start a post = ((register a post).1, none, [.heartbeat, .jobPolling]))
      ∧ (registrationSucceeds post = false →
        (register a post).2 ≠ none
          ∧ (register a post).1 = a
          ∧ Start a post = (a, (register a post).2, [])) := by
  constructor
  · intro h
    cases post with
    | failed e => simp [registrationSucceeds] at h
    | answered status body json =>
      cases body with
      | error e => simp [registrationSucceeds] at h
      | ok text =>
        have hst : status = 200 ∨ status = 201 := by simpa [registrationSucceeds] using h
        have hn : ¬ (status ≠ 200 ∧ status ≠ 201) := by omega
        cases json with
        | none => simp [register, Start, assignedID, hn]
        | some m =>
          cases hget : m.get "id" with
          | none => simp [register, Start, assignedID, hn, hget]
          | some v =>
            cases v with
            | str idStr => simp [register, Start, assignedID, hn, hget]
            | other r => simp [register, Start, assignedID, hn, hget]
  · intro h
    cases post with
    | failed e => simp [register, Start]
    | answered status body json =>
      by_cases hst : status ≠ 200 ∧ status ≠ 201
      · simp [register, Start, hst]
      · cases body with
        | error e => simp [register, Start, hst]
        | ok text =>
          have : status = 200 ∨ status = 201 := by omega
          simp [registrationSucceeds, this] at h

/-- Witness for C15 amended: an answer 201 with a string id, and an answer 500. -/
theorem register_outcome_witness :
    ((register freshAgent createdReply).2 = none
        ∧ (register freshAgent createdReply).1.registered = true
        ∧ (register freshAgent createdReply).1.info.AgentID = "srv-uuid-1"
        ∧ (register freshAgent createdReply).1.tasks = freshAgent.tasks
        ∧ Start freshAgent createdReply
            = ((register freshAgent createdReply).1, none, [.heartbeat, .jobPolling]))
      ∧ ((register freshAgent serverErrorReply).2 ≠ none
        ∧ (register freshAgent serverErrorReply).1 = freshAgent
        ∧ Start freshAgent serverErrorReply
            = (freshAgent, (register freshAgent serverErrorReply).2, [])) :=
  ⟨(register_outcome freshAgent createdReply).1 rfl,
   (register_outcome freshAgent serverErrorReply).2 rfl⟩

/-- C11 (the code departs from it): a first subscriber that attaches after two
lines were logged is sent those two lines from the history and then the same two
lines again, which were still waiting in the queue of the task: four messages,
each line twice. -/
theorem HandleWebSocket_replays_queue :
    loggingTask.Status.Logs = ["[T] 正在准备脚本文件...", "[T] 使用提供的脚本内容"]
      ∧ loggingTask.LogChan = loggingTask.Status.Logs
      ∧ receivedBy 1 (HandleWebSocket loggingAgent "j2" 1 true).2.2
          = loggingTask.Status.Logs ++ loggingTask.Status.Logs
      ∧ ¬ (receivedBy 1 (HandleWebSocket loggingAgent "j2" 1 true).2.2).Nodup := by
  refine ⟨rfl, rfl, rfl, by decide⟩

/-- C14 (the code departs from it): the progress of a k6 task leaves the interval
from 0 to 1. A line of output with `running` and a slash sets it to 50, and it is
still 50 when the job has ended `failed`; the completion branch of
`runK6Command` sets it to 100. -/
theorem progress_exceeds_one :
    (stateAfter demoHost timedK6Job 0 k6KilledOutcome k6DeadlineSched 13).task.Status.Progress = 50
      ∧ (executeJob demoHost freshAgent timedK6Job 0 k6KilledOutcome
          k6DeadlineSched).2.task.Status.Progress = 50
      ∧ (executeJob demoHost freshAgent timedK6Job 0 k6KilledOutcome
          k6DeadlineSched).2.task.Status.Status = "failed"
      ∧ (stateAfter demoHost inlineK6Job 0 {} [] 11).task.Status.Progress = 100
      ∧ (stateAfter demoHost inlineK6Job 0 {} [] 11).task.Status.Status = "completed"
      ∧ ¬ ((executeJob demoHost freshAgent timedK6Job 0 k6KilledOutcome
          k6DeadlineSched).2.task.Status.Progress ≤ 1) := by
  refine ⟨rfl, rfl, rfl, rfl, rfl, ?_⟩
  have h : (executeJob demoHost freshAgent timedK6Job 0 k6KilledOutcome
      k6DeadlineSched).2.task.Status.Progress = 50 := rfl
  rw [h]
  norm_num

/-- Witness for C20: a failed task whose process exited with status 1, and a
task without end time. -/
theorem reportJobResult_fields_witness :
    ((reportJobResult "j0" runningTask 9).ExecutionTime = 0)
      ∧ ((reportJobResult "j3" failedShellTask 9).ExecutionTime = 2)
      ∧ (reportJobResult "j3" failedShellTask 9).ExitCode = 0
      ∧ (reportJobResult "j3" failedShellTask 9).Status = "failed"
      ∧ (reportJobResult "j3" failedShellTask 9).Log = "STDOUT: hi\nSTDERR: oops" :=
  ⟨(reportJobResult_fields "j0" runningTask 9).2.2.2.2.2.1 rfl,
   (reportJobResult_fields "j3" failedShellTask 9).2.2.2.2.2.2 3500000 rfl (by decide) (by decide),
   (reportJobResult_fields "j3" failedShellTask 9).1,
   (reportJobResult_fields "j3" failedShellTask 9).2.2.1,
   (reportJobResult_fields "j3" failedShellTask 9).2.2.2.2.1⟩

/-! ## The result report of a run -/

theorem adapter_of_validationError (host : Host) (job : Job) (o : Outcome) (e : String)
    (h : validationError job = some e) : adapter host job o = ([], some e) := by
  unfold validationError at h
  unfold adapter
  split at h
  · simp at h
  · rename_i hk6
    rw [if_neg hk6]
    split at h
    · rename_i hshell
      rw [if_pos hshell]
      split at h
      · rename_i hcmd
        injection h with h
        subst h
        simp [executeShellJob, hcmd]
      · simp at h
    · rename_i hshell
      rw [if_neg hshell]
      split at h
      · rename_i hpy
        rw [if_pos hpy]
        split at h
        · rename_i hsc
          injection h with h
          subst h
          simp [executePythonJob, hsc]
        · simp at h
      · rename_i hpy
        rw [if_neg hpy]
        split at h
        · rename_i hdocker
          rw [if_pos hdocker]
          split at h
          · rename_i hcmd
            injection h with h
            subst h
            simp [executeDockerJob, hcmd]
          · simp at h
        · rename_i hdocker
          rw [if_neg hdocker]
          injection h with h
          subst h
          rfl

theorem step_quiet_untouched (host : Host) (s : RunState) (a : Act)
    (ha : quietActs [a] = true) (h : untouched s) : untouched (step host s a) := by
  cases hc : s.crashed
  · obtain ⟨hst, hl⟩ := h
    cases a with
    | env e =>
      rw [step_env_alive host s e hc]
      cases e with
      | elapse d => exact ⟨hst, hl⟩
      | stopRequest =>
        have hnr : s.task.Status.Status ≠ "running" := by
          rcases hst with h1 | h1 <;> rw [h1] <;> decide
        simp only [Ev.apply, stopTaskBody_of_not_running _ _ hnr]
        exact ⟨hst, hl⟩
      | readerLog src l =>
        refine ⟨?_, hl⟩
        show (addLog host s.task s.clock _).task.Status.Status = "pending"
          ∨ (addLog host s.task s.clock _).task.Status.Status = "failed"
        rw [addLog_status]
        exact hst
      | readerProgress l =>
        refine ⟨?_, hl⟩
        show (parseProgress s.task l).Status.Status = "pending"
          ∨ (parseProgress s.task l).Status.Status = "failed"
        rw [(parseProgress_verdict s.task l).1]
        exact hst
    | life o =>
      rw [step_life_alive host s o hc]
      cases o <;> simp [quietActs, Op.quiet] at ha
      case reportJobStatus id st p l => exact ⟨hst, hl⟩
      case reportJobResult id => exact ⟨hst, hl⟩
      case closeLogChan => exact ⟨hst, hl⟩
      case finish err =>
        cases err with
        | none => simp [Op.quiet] at ha
        | some e => exact ⟨Or.inr rfl, hl⟩
  · rw [step_crashed host s a hc]
    exact h

theorem step_quiet_failed (host : Host) (s : RunState) (a : Act)
    (ha : quietActs [a] = true) (h : s.task.Status.Status = "failed") :
    (step host s a).task.Status.Status = "failed" := by
  cases hc : s.crashed
  · cases a with
    | env e =>
      rw [step_env_alive host s e hc]
      cases e with
      | elapse d => exact h
      | stopRequest =>
        have hnr : s.task.Status.Status ≠ "running" := by rw [h]; decide
        simp only [Ev.apply, stopTaskBody_of_not_running _ _ hnr]
        exact h
      | readerLog src l =>
        show (addLog host s.task s.clock _).task.Status.Status = "failed"
        rw [addLog_status]
        exact h
      | readerProgress l =>
        show (parseProgress s.task l).Status.Status = "failed"
        rw [(parseProgress_verdict s.task l).1]
        exact h
    | life o =>
      rw [step_life_alive host s o hc]
      cases o <;> simp [quietActs, Op.quiet] at ha
      case reportJobStatus id st p l => exact h
      case reportJobResult id => exact h
      case closeLogChan => exact h
      case finish err =>
        cases err with
        | none => simp [Op.quiet] at ha
        | some e => rfl
  · rw [step_crashed host s a hc]
    exact h

theorem quietActs_cons (a : Act) (rest : List Act) :
    quietActs (a :: rest) = (quietActs [a] && quietActs rest) := by
  simp [quietActs]

theorem quietActs_take (acts : List Act) (n : Nat) (h : quietActs acts = true) :
    quietActs (acts.take n) = true := by
  simp only [quietActs, List.all_eq_true] at h ⊢
  intro a ha
  exact h a (List.mem_of_mem_take ha)

theorem quietActs_drop (acts : List Act) (n : Nat) (h : quietActs acts = true) :
    quietActs (acts.drop n) = true := by
  simp only [quietActs, List.all_eq_true] at h ⊢
  intro a ha
  exact h a (List.mem_of_mem_drop ha)

theorem run_quiet_untouched (host : Host) (acts : List Act) :
    ∀ s : RunState, quietActs acts = true → untouched s → untouched (run host s acts) := by
  induction acts with
  | nil => intro s _ h; exact h
  | cons a rest ih =>
    intro s hq h
    rw [quietActs_cons, Bool.and_eq_true] at hq
    rw [run_cons]
    exact ih _ hq.2 (step_quiet_untouched host s a hq.1 h)

theorem run_quiet_failed (host : Host) (acts : List Act) :
    ∀ s : RunState, quietActs acts = true → s.task.Status.Status = "failed" →
      (run host s acts).task.Status.Status = "failed" := by
  induction acts with
  | nil => intro s _ h; exact h
  | cons a rest ih =>
    intro s hq h
    rw [quietActs_cons, Bool.and_eq_true] at hq
    rw [run_cons]
    exact ih _ hq.2 (step_quiet_failed host s a hq.1 h)

theorem quietActs_weave (ops : List Op) (sched : List (List Ev))
    (h : (ops.all fun o => o.quiet) = true) : quietActs (weave ops sched) = true := by
  induction ops generalizing sched with
  | nil => rfl
  | cons o rest ih =>
    simp only [List.all_cons, Bool.and_eq_true] at h
    rw [weave_cons]
    have hr := ih sched.tail h.2
    simp only [quietActs, List.all_append, List.all_cons, List.all_map, Bool.and_eq_true] at hr ⊢
    refine ⟨?_, h.1, hr⟩
    simp [List.all_eq_true]

theorem quietActs_rejected (host : Host) (job : Job) (o : Outcome) (sched : List (List Ev))
    (e : String) (h : validationError job = some e) :
    quietActs (jobActs host job o sched) = true := by
  unfold jobActs lifecycle
  rw [adapter_of_validationError host job o e h]
  exact quietActs_weave _ _ rfl

/-- C19: a job that is rejected before any process is launched (unknown kind,
shell or docker job without command, python job without script content) makes
`executeJob` launch no process and end with the status `failed`, the end time
set and the validation error as error; along the run the status is `pending` or
`failed`, never `running`, and once `failed` it stays `failed`. -/
theorem executeJob_rejected (host : Host) (a : Agent) (job : Job) (now : Nat) (o : Outcome)
    (sched : List (List Ev)) (e : String) (h : validationError job = some e) :
    (executeJob host a job now o sched).2.task.Status.Status = "failed"
      ∧ (executeJob host a job now o sched).2.task.Status.Error = e
      ∧ (executeJob host a job now o sched).2.task.Status.EndTime.isSome = true
      ∧ (executeJob host a job now o sched).2.launched = []
      ∧ (executeJob host a job now o sched).1.tasks.get job.ID
          = some (executeJob host a job now o sched).2.task
      ∧ (∀ n, ((stateAfter host job now o sched n).task.Status.Status = "pending"
            ∨ (stateAfter host job now o sched n).task.Status.Status = "failed")
          ∧ (stateAfter host job now o sched n).task.Status.Status ≠ "running"
          ∧ (stateAfter host job now o sched n).launched = [])
      ∧ (∀ n m, n ≤ m → (stateAfter host job now o sched n).task.Status.Status = "failed" →
          (stateAfter host job now o sched m).task.Status.Status = "failed")
      ∧ (job.Type_ ≠ "k6" → job.Type_ ≠ "shell" → job.Type_ ≠ "python" →
          job.Type_ ≠ "docker" → e = "不支持的任务类型: " ++ job.Type_) := by
  have hq := quietActs_rejected host job o sched e h
  have hstart : untouched (startState host job now) := ⟨Or.inl rfl, rfl⟩
  obtain ⟨-, -, s1, -, -, -, -, -, ht, -, -, hreg⟩ := executeJob_run host a job now o sched
  rw [adapter_of_validationError host job o e h] at ht
  refine ⟨?_, ?_, ?_, ?_, hreg, ?_, ?_, ?_⟩
  · rw [ht.1]; rfl
  · rw [ht.2.1]; rfl
  · rw [ht.2.2.1]; rfl
  · exact (run_quiet_untouched host _ _ hq hstart).2
  · intro n
    have hu := run_quiet_untouched host _ (startState host job now)
      (quietActs_take _ n hq) hstart
    refine ⟨hu.1, ?_, hu.2⟩
    rcases hu.1 with h1 | h1
    · unfold stateAfter; rw [h1]; decide
    · unfold stateAfter; rw [h1]; decide
  · intro n m hnm hn
    obtain ⟨k, rfl⟩ := Nat.exists_eq_add_of_le hnm
    unfold stateAfter at hn ⊢
    rw [List.take_add, run_append]
    exact run_quiet_failed host _ _ (quietActs_take _ k (quietActs_drop _ n hq)) hn
  · intro h1 h2 h3 h4
    simp [validationError, h1, h2, h3, h4] at h
    exact h.symm

/-- Witness for C19: a job of the unknown kind `ruby`, a stop request being
served before the final block. -/
theorem executeJob_rejected_witness :
    validationError rubyJob = some "不支持的任务类型: ruby"
      ∧ (executeJob demoHost freshAgent rubyJob 0 {} [[], [.stopRequest]]).2.task.Status.Status
          = "failed"
      ∧ (executeJob demoHost freshAgent rubyJob 0 {} [[], [.stopRequest]]).2.task.Status.Error
          = "不支持的任务类型: ruby"
      ∧ (executeJob demoHost freshAgent rubyJob 0 {} [[], [.stopRequest]]).2.launched = [] :=
  ⟨rfl,
   (executeJob_rejected demoHost freshAgent rubyJob 0 {} [[], [.stopRequest]] _ rfl).1,
   (executeJob_rejected demoHost freshAgent rubyJob 0 {} [[], [.stopRequest]] _ rfl).2.1,
   (executeJob_rejected demoHost freshAgent rubyJob 0 {} [[], [.stopRequest]] _ rfl).2.2.2.1⟩

/-! ## Fields of a command line -/

/-- The fields of a command line are cut at every white space character, the
no-break space and the ideographic space included, as `strings.Fields` does; a
docker job whose command is one no-break space has no field, launches nothing and
is refused as an invalid command. -/
theorem fields_cut_at_spaces :
    fields "echo  hi" = ["echo", "hi"]
      ∧ fields ("echo" ++ String.singleton (Char.ofNat 160) ++ "hi") = ["echo", "hi"]
      ∧ fields ("echo" ++ String.singleton (Char.ofNat 12288) ++ "hi\t") = ["echo", "hi"]
      ∧ fields " \n" = []
      ∧ fields (String.singleton (Char.ofNat 160)) = []
      ∧ (executeDockerJob
          { ID := "j5", Type_ := "docker", Command := String.singleton (Char.ofNat 160) } {}).2
          = some "无效的Docker命令"
      ∧ (executeJob demoHost freshAgent
          { ID := "j5", Type_ := "docker", Command := String.singleton (Char.ofNat 160) } 0 {}
          []).2.launched = [] := by
  refine ⟨?_, ?_, ?_, ?_, ?_, ?_, ?_⟩ <;> decide

end K6Agent
